import Mathlib

/-!
dnsimple-go: path builders and resource operations

A shallow embedding of the request-shaping code of the `dnsimple` package
(`domains.go`, `templates.go`, `templates_records.go`, `templates_domains.go`,
`services_domains.go`, `registrar_auto_renewal.go`, `zones.go`).

Conventions of the embedding:

* a Go `string` is a `String`, an `int64` is an `Int`;
* a Go `error` value is an `Option Error` (`none` is `nil`);
* a Go pointer result is an `Option` (`none` is `nil`);
* a function returning `(string, error)` returns `String × Option Error`;
* `fmt.Sprintf` with `%v` verbs is string concatenation, an integer being
  rendered in decimal.
-/

namespace Dnsimple

/-! ## Errors and identifier checks -/

/-- Errors seen by the callers of the package: the local, pre-request
validation error (it names the offending parameter) and any error handed
back by the client's transport methods. -/
inductive Error where
  | validation (param : String)
  | transport (msg : String)
  deriving DecidableEq, Repr

/-- Modelled from the spec: `checkEmptyString` is declared outside the files
under `src/`. An identifier must be non-empty; a violation is a validation
error naming the offending parameter. -/
def checkEmptyString (name : String) (value : String) : Option Error :=
  if value = "" then some (Error.validation name) else none

/-- Modelled from the spec: `checkEmptyInt64` is declared outside the files
under `src/`. A numeric identifier must be non-zero; a violation is a
validation error naming the offending parameter. -/
def checkEmptyInt64 (name : String) (value : Int) : Option Error :=
  if value = 0 then some (Error.validation name) else none

/-! ## Path builders -/

/-- `domains.go`: `domainsPath`. -/
def domainsPath (accountID : String) : String × Option Error :=
  match checkEmptyString "accountID" accountID with
  | some err => ("", some err)
  | none => ("/" ++ accountID ++ "/domains", none)

/-- `domains.go`: `domainPath`. -/
def domainPath (accountID : String) (domainIdentifier : String) : String × Option Error :=
  match domainsPath accountID with
  | (_, some err) => ("", some err)
  | (path, none) =>
    match checkEmptyString "domainIdentifier" domainIdentifier with
    | some err => ("", some err)
    | none => (path ++ "/" ++ domainIdentifier, none)

/-- `services_domains.go`: `domainServicesPath`. -/
def domainServicesPath (accountID domainIdentifier : String) : String × Option Error :=
  match domainPath accountID domainIdentifier with
  | (_, some err) => ("", some err)
  | (path, none) => (path ++ "/services", none)

/-- `services_domains.go`: `domainServicePath`. -/
def domainServicePath (accountID domainIdentifier : String) (serviceIdentifier : String) :
    String × Option Error :=
  match domainServicesPath accountID domainIdentifier with
  | (_, some err) => ("", some err)
  | (path, none) =>
    match checkEmptyString "serviceIdentifier" serviceIdentifier with
    | some err => ("", some err)
    | none => (path ++ "/" ++ serviceIdentifier, none)

/-- `templates.go`: `templatesPath`. -/
def templatesPath (accountID : String) : String × Option Error :=
  match checkEmptyString "accountID" accountID with
  | some err => ("", some err)
  | none => ("/" ++ accountID ++ "/templates", none)

/-- `templates.go`: `templatePath`. -/
def templatePath (accountID : String) (templateIdentifier : String) : String × Option Error :=
  match templatesPath accountID with
  | (_, some err) => ("", some err)
  | (path, none) =>
    match checkEmptyString "templateIdentifier" templateIdentifier with
    | some err => ("", some err)
    | none => (path ++ "/" ++ templateIdentifier, none)

/-- `templates_records.go`: `templateRecordsPath`. -/
def templateRecordsPath (accountID : String) (templateIdentifier : String) :
    String × Option Error :=
  match templatePath accountID templateIdentifier with
  | (_, some err) => ("", some err)
  | (path, none) => (path ++ "/records", none)

/-- `templates_records.go`: `templateRecordPath`; the record id is printed
with `%v`, that is in decimal. -/
def templateRecordPath (accountID : String) (templateIdentifier : String)
    (templateRecordID : Int) : String × Option Error :=
  match templateRecordsPath accountID templateIdentifier with
  | (_, some err) => ("", some err)
  | (path, none) =>
    match checkEmptyInt64 "templateRecordID" templateRecordID with
    | some err => ("", some err)
    | none => (path ++ "/" ++ toString templateRecordID, none)

/-! ## Payloads and response wrappers -/

/-- `domains.go`: `Domain`. -/
structure Domain where
  ID : Int := 0
  AccountID : Int := 0
  RegistrantID : Int := 0
  Name : String := ""
  UnicodeName : String := ""
  Token : String := ""
  State : String := ""
  AutoRenew : Bool := false
  PrivateWhois : Bool := false
  ExpiresAt : String := ""
  CreatedAt : String := ""
  UpdatedAt : String := ""
  deriving DecidableEq, Repr

/-- `templates.go`: `Template`. -/
structure Template where
  ID : Int := 0
  SID : String := ""
  AccountID : Int := 0
  Name : String := ""
  Description : String := ""
  CreatedAt : String := ""
  UpdatedAt : String := ""
  deriving DecidableEq, Repr

/-- `templates_records.go`: `TemplateRecord`; the Go field `Type` is
`RecordType` here. -/
structure TemplateRecord where
  ID : Int := 0
  TemplateID : Int := 0
  Name : String := ""
  Content : String := ""
  TTL : Int := 0
  RecordType : String := ""
  Priority : Int := 0
  CreatedAt : String := ""
  UpdatedAt : String := ""
  deriving DecidableEq, Repr

/-- `zones.go`: `Zone`. -/
structure Zone where
  ID : Int := 0
  AccountID : Int := 0
  Name : String := ""
  Reverse : Bool := false
  CreatedAt : String := ""
  UpdatedAt : String := ""
  deriving DecidableEq, Repr

/-- `services_domains.go`: `DomainServiceSettings`; the Go map (nil when
`none`) is kept as its list of entries. -/
structure DomainServiceSettings where
  Settings : Option (List (String × String)) := none
  deriving DecidableEq, Repr

/-- Modelled from the spec: the `Service` payload is declared outside the
files under `src/`; the spec treats resource schemas as payload types whose
fields play no part in request shaping, so only a name is kept. -/
structure Service where
  Name : String := ""
  deriving DecidableEq, Repr

/-- The raw HTTP response (`*http.Response`) handed back by the client. -/
structure HTTPResponse where
  StatusCode : Int := 0
  Body : String := ""
  deriving DecidableEq, Repr

/-- Modelled from the spec: pagination metadata of a list response (current
page, per-page count, total pages, total entries); the type is declared
outside the files under `src/`. -/
structure Pagination where
  CurrentPage : Int := 0
  PerPage : Int := 0
  TotalPages : Int := 0
  TotalEntries : Int := 0
  deriving DecidableEq, Repr

/-- Modelled from the spec: the `Response` wrapper embedded in every
response type pairs the payload with the raw HTTP response; it is declared
outside the files under `src/`. `zones.go` spells the field `HttpResponse`;
it is the same field here. -/
structure Response where
  HTTPResponse : Option HTTPResponse := none
  Pagination : Option Pagination := none
  deriving DecidableEq, Repr

/-- `domains.go`: `DomainResponse`. -/
structure DomainResponse extends Response where
  Data : Option Domain := none
  deriving DecidableEq, Repr

/-- `domains.go`: `DomainsResponse`. -/
structure DomainsResponse extends Response where
  Data : List Domain := []
  deriving DecidableEq, Repr

/-- `templates.go`: `TemplateResponse`. -/
structure TemplateResponse extends Response where
  Data : Option Template := none
  deriving DecidableEq, Repr

/-- `templates.go`: `TemplatesResponse`. -/
structure TemplatesResponse extends Response where
  Data : List Template := []
  deriving DecidableEq, Repr

/-- `templates_records.go`: `TemplateRecordResponse`. -/
structure TemplateRecordResponse extends Response where
  Data : Option TemplateRecord := none
  deriving DecidableEq, Repr

/-- `templates_records.go`: `TemplateRecordsResponse`. -/
structure TemplateRecordsResponse extends Response where
  Data : List TemplateRecord := []
  deriving DecidableEq, Repr

/-- `zones.go`: `ZoneResponse`. -/
structure ZoneResponse extends Response where
  Data : Option Zone := none
  deriving DecidableEq, Repr

/-- `zones.go`: `ZonesResponse`. -/
structure ZonesResponse extends Response where
  Data : List Zone := []
  deriving DecidableEq, Repr

/-- Modelled from the spec: `ServiceResponse` (single-item envelope around a
`Service`) is declared outside the files under `src/`. -/
structure ServiceResponse extends Response where
  Data : Option Service := none
  deriving DecidableEq, Repr

/-- Modelled from the spec: `ServicesResponse` (collection envelope of
`Service`) is declared outside the files under `src/`. -/
structure ServicesResponse extends Response where
  Data : List Service := []
  deriving DecidableEq, Repr

/-! ## Query options, versioning -/

/-- Modelled from the spec: `ListOptions` is declared outside the files
under `src/`. It carries the pagination options `page` and `per_page`; a
zero value means the option is absent. -/
structure ListOptions where
  Page : Int := 0
  PerPage : Int := 0
  deriving DecidableEq, Repr

/-- `domains.go`: `DomainListOptions`; `NameLike` and `RegistrantID` are
pointers (`none` is `nil`), `ListOptions` is embedded. -/
structure DomainListOptions extends ListOptions where
  NameLike : Option String := none
  RegistrantID : Option Int := none
  deriving DecidableEq, Repr

/-- The query parameters of an options object: name and value of every
option that is emitted. -/
class QueryOptions (α : Type) where
  values : α → List (String × String)

/-- Modelled from the spec: the encoding of `ListOptions`; `page` and
`per_page` are emitted only when non-zero. -/
def ListOptions.queryValues (o : ListOptions) : List (String × String) :=
  (if o.Page = 0 then [] else [("page", toString o.Page)]) ++
  (if o.PerPage = 0 then [] else [("per_page", toString o.PerPage)])

/-- The encoding of `DomainListOptions` given by its `url` tags in
`domains.go` (`name_like,omitempty`, `registrant_id,omitempty` and the
embedded pagination fields, flattened): a pointer field is emitted when it
is not nil. The parameters are written in the order of their names:
`name_like`, `page`, `per_page`, `registrant_id`. -/
def DomainListOptions.queryValues (o : DomainListOptions) : List (String × String) :=
  (match o.NameLike with
    | none => []
    | some v => [("name_like", v)]) ++
  o.toListOptions.queryValues ++
  (match o.RegistrantID with
    | none => []
    | some v => [("registrant_id", toString v)])

instance : QueryOptions ListOptions := ⟨ListOptions.queryValues⟩

instance : QueryOptions DomainListOptions := ⟨DomainListOptions.queryValues⟩

/-- The UTF-8 bytes of a character: what a Go string holds for it. -/
def utf8Bytes (c : Char) : List Nat :=
  let n := c.toNat
  if n < 128 then [n]
  else if n < 2048 then [192 + n / 64, 128 + n % 64]
  else if n < 65536 then [224 + n / 4096, 128 + n / 64 % 64, 128 + n % 64]
  else [240 + n / 262144, 128 + n / 4096 % 64, 128 + n / 64 % 64, 128 + n % 64]

/-- The upper-case hexadecimal digit of a value below sixteen. -/
def hexDigit (n : Nat) : Char :=
  if n < 10 then Char.ofNat (48 + n) else Char.ofNat (55 + n)

/-- The value of a hexadecimal digit, upper or lower case. -/
def hexValue (c : Char) : Nat :=
  let n := c.toNat
  if n < 58 then n - 48 else if n < 97 then n - 55 else n - 87

/-- The characters that query escaping leaves as they are: ASCII letters,
digits, `-`, `_`, `.` and `~`. -/
def isUnreserved (c : Char) : Bool :=
  let n := c.toNat
  decide ((48 ≤ n ∧ n ≤ 57) ∨ (65 ≤ n ∧ n ≤ 90) ∨ (97 ≤ n ∧ n ≤ 122) ∨
    n = 45 ∨ n = 95 ∨ n = 46 ∨ n = 126)

/-- The escape of a list of bytes: `%` and two hexadecimal digits each. -/
def escapeBytes : List Nat → List Char
  | [] => []
  | b :: bs => '%' :: hexDigit (b / 16) :: hexDigit (b % 16) :: escapeBytes bs

/-- The query escape of one character: unreserved characters stay, a space
becomes `+`, every other character becomes the escape of its bytes. -/
def escapeChar (c : Char) : List Char :=
  if isUnreserved c then [c]
  else if c = ' ' then ['+']
  else escapeBytes (utf8Bytes c)

/-- The query escape of a list of characters. -/
def escapeChars : List Char → List Char
  | [] => []
  | c :: cs => escapeChar c ++ escapeChars cs

/-- The query escape of a string (`url.QueryEscape`). -/
def queryEscape (s : String) : String :=
  ⟨escapeChars s.data⟩

/-- One `name=value` item of a query string, both sides escaped. -/
def encodeParam (kv : String × String) : List Char :=
  escapeChars kv.1.data ++ '=' :: escapeChars kv.2.data

/-- The items after the first one, each behind its `&`. -/
def encodeMore : List (String × String) → List Char
  | [] => []
  | kv :: kvs => '&' :: (encodeParam kv ++ encodeMore kvs)

/-- The query string of a list of parameters: escaped `name=value` items
joined by `&`. -/
def encodeQuery : List (String × String) → String
  | [] => ""
  | kv :: kvs => ⟨encodeParam kv ++ encodeMore kvs⟩

/-- Modelled from the spec: `addURLQueryOptions` is declared outside the
files under `src/`. It merges an options object onto the path as a query
string, `?` and the escaped `name=value` items joined by `&`; only
non-default fields are emitted, a nil options pointer or an all-default
object adds nothing, and it fails only for an option value that has no
query form, which the typed options here never have. -/
def addURLQueryOptions {α : Type} [QueryOptions α] (path : String) (options : Option α) :
    String × Option Error :=
  match options with
  | none => (path, none)
  | some o =>
    match QueryOptions.values o with
    | [] => (path, none)
    | kv :: kvs => (path ++ "?" ++ encodeQuery (kv :: kvs), none)

/-- Modelled from the spec: `versioned` is declared outside the files under
`src/`. It is the pure, total wrapper that prepends the fixed API version
segment `/v2` to a path that does not carry it yet. By the spec's data
model a built path never carries the version prefix until it is explicitly
versioned, and every call site below passes a freshly built path, so the
segment is prepended. -/
def versioned (path : String) : String :=
  "/v2" ++ path

/-! ## The client -/

/-- HTTP verbs of the client's transport methods. -/
inductive Method where
  | GET | POST | PUT | PATCH | DELETE
  deriving DecidableEq, Repr

/-- A request body (the `payload` argument of a client method). -/
inductive Payload where
  | domain (attributes : Domain)
  | template (attributes : Template)
  | templateRecord (attributes : TemplateRecord)
  | serviceSettings (settings : DomainServiceSettings)
  deriving DecidableEq, Repr

/-- One invocation of a transport method of the client: the verb, the path,
the body (`none` is a nil payload) and whether a decode target was passed
(`false` is a nil `obj`). -/
structure Request where
  method : Method
  path : String
  payload : Option Payload
  hasObj : Bool
  deriving DecidableEq, Repr

/-- The `Client` is declared outside the files under `src/`; it is a
parameter of every operation. `roundTrip` is what a transport method
returns for a request, the raw response and the error; `decode` is the
state in which the call leaves the decode target it was given. -/
structure Client where
  roundTrip : Request → Option HTTPResponse × Option Error
  decode : (α : Type) → Request → α → α

/-- What a transport method hands back, together with the invocation it
made. -/
structure Exchange where
  resp : Option HTTPResponse
  err : Option Error
  call : Request

/-- An invocation of the transport with the given verb. -/
def Client.send (c : Client) (method : Method) (path : String) (payload : Option Payload)
    (hasObj : Bool) : Exchange :=
  let call : Request := ⟨method, path, payload, hasObj⟩
  ⟨(c.roundTrip call).1, (c.roundTrip call).2, call⟩

/-- The method `client.get(ctx, path, obj)`. -/
def Client.get {α : Type} (c : Client) (path : String) (obj : Option α) : Exchange :=
  c.send Method.GET path none obj.isSome

/-- The method `client.post(ctx, path, payload, obj)`. -/
def Client.post {α : Type} (c : Client) (path : String) (payload : Option Payload)
    (obj : Option α) : Exchange :=
  c.send Method.POST path payload obj.isSome

/-- The method `client.put(ctx, path, payload, obj)`. -/
def Client.put {α : Type} (c : Client) (path : String) (payload : Option Payload)
    (obj : Option α) : Exchange :=
  c.send Method.PUT path payload obj.isSome

/-- The method `client.patch(ctx, path, payload, obj)`. -/
def Client.patch {α : Type} (c : Client) (path : String) (payload : Option Payload)
    (obj : Option α) : Exchange :=
  c.send Method.PATCH path payload obj.isSome

/-- The method `client.delete(ctx, path, payload, obj)`. -/
def Client.delete {α : Type} (c : Client) (path : String) (payload : Option Payload)
    (obj : Option α) : Exchange :=
  c.send Method.DELETE path payload obj.isSome

/-- The two results of an operation, a response pointer and an error, and
the transport invocations the operation made, in order. -/
structure Outcome (R : Type) where
  response : Option R
  err : Option Error
  calls : List Request

/-- `domains.go`: `DomainsService`. -/
structure DomainsService where
  client : Client

/-- `templates.go`: `TemplatesService`. -/
structure TemplatesService where
  client : Client

/-- `zones.go`: `ZonesService`. -/
structure ZonesService where
  client : Client

/-- The receiver of the operations of `services_domains.go`; like its
siblings it holds the client. -/
structure ServicesService where
  client : Client

/-- The receiver of the operations of `registrar_auto_renewal.go`; like its
siblings it holds the client. -/
structure RegistrarService where
  client : Client

/-! ## Resource operations

The `ctx` argument of an operation is handed to the client unchanged and is
left out. A response variable starts as the zero value of its type. -/

/-- `domains.go`: `ListDomains`. -/
def DomainsService.ListDomains (s : DomainsService) (accountID : String)
    (options : Option DomainListOptions) :
    Outcome DomainsResponse :=
  match domainsPath accountID with
  | (_, some err) => ⟨none, some err, []⟩
  | (path, none) =>
    let path := versioned path
    let domainsResponse : DomainsResponse := {}
    match addURLQueryOptions path options with
    | (_, some err) => ⟨none, some err, []⟩
    | (path, none) =>
      let x := s.client.get path (some domainsResponse)
      let domainsResponse := s.client.decode DomainsResponse x.call domainsResponse
      match x.err with
      | some err => ⟨none, some err, [x.call]⟩
      | none => ⟨some { domainsResponse with HTTPResponse := x.resp }, none, [x.call]⟩

/-- `domains.go`: `CreateDomain`. -/
def DomainsService.CreateDomain (s : DomainsService) (accountID : String)
    (domainAttributes : Domain) :
    Outcome DomainResponse :=
  match domainsPath accountID with
  | (_, some err) => ⟨none, some err, []⟩
  | (path, none) =>
    let path := versioned path
    let domainResponse : DomainResponse := {}
    let x := s.client.post path (some (Payload.domain domainAttributes)) (some domainResponse)
    let domainResponse := s.client.decode DomainResponse x.call domainResponse
    match x.err with
    | some err => ⟨none, some err, [x.call]⟩
    | none => ⟨some { domainResponse with HTTPResponse := x.resp }, none, [x.call]⟩

/-- `domains.go`: `GetDomain`. -/
def DomainsService.GetDomain (s : DomainsService) (accountID : String)
    (domainIdentifier : String) :
    Outcome DomainResponse :=
  match domainPath accountID domainIdentifier with
  | (_, some err) => ⟨none, some err, []⟩
  | (path, none) =>
    let path := versioned path
    let domainResponse : DomainResponse := {}
    let x := s.client.get path (some domainResponse)
    let domainResponse := s.client.decode DomainResponse x.call domainResponse
    match x.err with
    | some err => ⟨none, some err, [x.call]⟩
    | none => ⟨some { domainResponse with HTTPResponse := x.resp }, none, [x.call]⟩

/-- `domains.go`: `DeleteDomain`; the call passes a nil payload and a nil target. -/
def DomainsService.DeleteDomain (s : DomainsService) (accountID : String)
    (domainIdentifier : String) :
    Outcome DomainResponse :=
  match domainPath accountID domainIdentifier with
  | (_, some err) => ⟨none, some err, []⟩
  | (path, none) =>
    let path := versioned path
    let domainResponse : DomainResponse := {}
    let x := s.client.delete path none (none : Option Unit)
    match x.err with
    | some err => ⟨none, some err, [x.call]⟩
    | none => ⟨some { domainResponse with HTTPResponse := x.resp }, none, [x.call]⟩

/-- `templates.go`: `ListTemplates`; when the transport call fails the response
variable is returned next to the error. -/
def TemplatesService.ListTemplates (s : TemplatesService) (accountID : String)
    (options : Option ListOptions) :
    Outcome TemplatesResponse :=
  match templatesPath accountID with
  | (_, some err) => ⟨none, some err, []⟩
  | (path, none) =>
    let path := versioned path
    let templatesResponse : TemplatesResponse := {}
    match addURLQueryOptions path options with
    | (_, some err) => ⟨none, some err, []⟩
    | (path, none) =>
      let x := s.client.get path (some templatesResponse)
      let templatesResponse := s.client.decode TemplatesResponse x.call templatesResponse
      match x.err with
      | some err => ⟨some templatesResponse, some err, [x.call]⟩
      | none => ⟨some { templatesResponse with HTTPResponse := x.resp }, none, [x.call]⟩

/-- `templates.go`: `CreateTemplate`. -/
def TemplatesService.CreateTemplate (s : TemplatesService) (accountID : String)
    (templateAttributes : Template) :
    Outcome TemplateResponse :=
  match templatesPath accountID with
  | (_, some err) => ⟨none, some err, []⟩
  | (path, none) =>
    let path := versioned path
    let templateResponse : TemplateResponse := {}
    let x := s.client.post path (some (Payload.template templateAttributes)) (some templateResponse)
    let templateResponse := s.client.decode TemplateResponse x.call templateResponse
    match x.err with
    | some err => ⟨none, some err, [x.call]⟩
    | none => ⟨some { templateResponse with HTTPResponse := x.resp }, none, [x.call]⟩

/-- `templates.go`: `GetTemplate`. -/
def TemplatesService.GetTemplate (s : TemplatesService) (accountID : String)
    (templateIdentifier : String) :
    Outcome TemplateResponse :=
  match templatePath accountID templateIdentifier with
  | (_, some err) => ⟨none, some err, []⟩
  | (path, none) =>
    let path := versioned path
    let templateResponse : TemplateResponse := {}
    let x := s.client.get path (some templateResponse)
    let templateResponse := s.client.decode TemplateResponse x.call templateResponse
    match x.err with
    | some err => ⟨none, some err, [x.call]⟩
    | none => ⟨some { templateResponse with HTTPResponse := x.resp }, none, [x.call]⟩

/-- `templates.go`: `UpdateTemplate`. -/
def TemplatesService.UpdateTemplate (s : TemplatesService) (accountID : String)
    (templateIdentifier : String) (templateAttributes : Template) :
    Outcome TemplateResponse :=
  match templatePath accountID templateIdentifier with
  | (_, some err) => ⟨none, some err, []⟩
  | (path, none) =>
    let path := versioned path
    let templateResponse : TemplateResponse := {}
    let x :=
      s.client.patch path (some (Payload.template templateAttributes)) (some templateResponse)
    let templateResponse := s.client.decode TemplateResponse x.call templateResponse
    match x.err with
    | some err => ⟨none, some err, [x.call]⟩
    | none => ⟨some { templateResponse with HTTPResponse := x.resp }, none, [x.call]⟩

/-- `templates.go`: `DeleteTemplate`. -/
def TemplatesService.DeleteTemplate (s : TemplatesService) (accountID : String)
    (templateIdentifier : String) :
    Outcome TemplateResponse :=
  match templatePath accountID templateIdentifier with
  | (_, some err) => ⟨none, some err, []⟩
  | (path, none) =>
    let path := versioned path
    let templateResponse : TemplateResponse := {}
    let x := s.client.delete path none (none : Option Unit)
    match x.err with
    | some err => ⟨none, some err, [x.call]⟩
    | none => ⟨some { templateResponse with HTTPResponse := x.resp }, none, [x.call]⟩

/-- `templates_records.go`: `ListTemplateRecords`; when the transport call fails
the response variable is returned next to the error. -/
def TemplatesService.ListTemplateRecords (s : TemplatesService) (accountID : String)
    (templateIdentifier : String) (options : Option ListOptions) :
    Outcome TemplateRecordsResponse :=
  match templateRecordsPath accountID templateIdentifier with
  | (_, some err) => ⟨none, some err, []⟩
  | (path, none) =>
    let path := versioned path
    let templateRecordsResponse : TemplateRecordsResponse := {}
    match addURLQueryOptions path options with
    | (_, some err) => ⟨none, some err, []⟩
    | (path, none) =>
      let x := s.client.get path (some templateRecordsResponse)
      let templateRecordsResponse :=
        s.client.decode TemplateRecordsResponse x.call templateRecordsResponse
      match x.err with
      | some err => ⟨some templateRecordsResponse, some err, [x.call]⟩
      | none => ⟨some { templateRecordsResponse with HTTPResponse := x.resp }, none, [x.call]⟩

/-- `templates_records.go`: `CreateTemplateRecord`. -/
def TemplatesService.CreateTemplateRecord (s : TemplatesService) (accountID : String)
    (templateIdentifier : String) (templateRecordAttributes : TemplateRecord) :
    Outcome TemplateRecordResponse :=
  match templateRecordsPath accountID templateIdentifier with
  | (_, some err) => ⟨none, some err, []⟩
  | (path, none) =>
    let path := versioned path
    let templateRecordResponse : TemplateRecordResponse := {}
    let x := s.client.post path (some (Payload.templateRecord templateRecordAttributes))
      (some templateRecordResponse)
    let templateRecordResponse :=
      s.client.decode TemplateRecordResponse x.call templateRecordResponse
    match x.err with
    | some err => ⟨none, some err, [x.call]⟩
    | none => ⟨some { templateRecordResponse with HTTPResponse := x.resp }, none, [x.call]⟩

/-- `templates_records.go`: `GetTemplateRecord`. -/
def TemplatesService.GetTemplateRecord (s : TemplatesService) (accountID : String)
    (templateIdentifier : String) (templateRecordID : Int) :
    Outcome TemplateRecordResponse :=
  match templateRecordPath accountID templateIdentifier templateRecordID with
  | (_, some err) => ⟨none, some err, []⟩
  | (path, none) =>
    let path := versioned path
    let templateRecordResponse : TemplateRecordResponse := {}
    let x := s.client.get path (some templateRecordResponse)
    let templateRecordResponse :=
      s.client.decode TemplateRecordResponse x.call templateRecordResponse
    match x.err with
    | some err => ⟨none, some err, [x.call]⟩
    | none => ⟨some { templateRecordResponse with HTTPResponse := x.resp }, none, [x.call]⟩

/-- `templates_records.go`: `DeleteTemplateRecord`. -/
def TemplatesService.DeleteTemplateRecord (s : TemplatesService) (accountID : String)
    (templateIdentifier : String) (templateRecordID : Int) :
    Outcome TemplateRecordResponse :=
  match templateRecordPath accountID templateIdentifier templateRecordID with
  | (_, some err) => ⟨none, some err, []⟩
  | (path, none) =>
    let path := versioned path
    let templateRecordResponse : TemplateRecordResponse := {}
    let x := s.client.delete path none (none : Option Unit)
    match x.err with
    | some err => ⟨none, some err, [x.call]⟩
    | none => ⟨some { templateRecordResponse with HTTPResponse := x.resp }, none, [x.call]⟩

/-- `templates_domains.go`: `ApplyTemplate`. The source names the second
parameter `templateIdentifier`; the body never reads it. -/
def TemplatesService.ApplyTemplate (s : TemplatesService) (accountID : String)
    (templateIdentifier : String) (domainIdentifier : String) :
    Outcome TemplateResponse :=
  match domainPath accountID domainIdentifier with
  | (_, some err) => ⟨none, some err, []⟩
  | (path, none) =>
    let path := versioned (path ++ "/templates")
    let templateResponse : TemplateResponse := {}
    let x := s.client.post path none (none : Option Unit)
    match x.err with
    | some err => ⟨none, some err, [x.call]⟩
    | none => ⟨some { templateResponse with HTTPResponse := x.resp }, none, [x.call]⟩

/-- `services_domains.go`: `AppliedServices`; when the transport call fails the
response variable is returned next to the error. -/
def ServicesService.AppliedServices (s : ServicesService) (accountID : String)
    (domainIdentifier : String) (options : Option ListOptions) :
    Outcome ServicesResponse :=
  match domainServicesPath accountID domainIdentifier with
  | (_, some err) => ⟨none, some err, []⟩
  | (path, none) =>
    let path := versioned path
    let servicesResponse : ServicesResponse := {}
    match addURLQueryOptions path options with
    | (_, some err) => ⟨none, some err, []⟩
    | (path, none) =>
      let x := s.client.get path (some servicesResponse)
      let servicesResponse := s.client.decode ServicesResponse x.call servicesResponse
      match x.err with
      | some err => ⟨some servicesResponse, some err, [x.call]⟩
      | none => ⟨some { servicesResponse with HTTPResponse := x.resp }, none, [x.call]⟩

/-- `services_domains.go`: `ApplyService`; the settings are the payload and the
target is nil. -/
def ServicesService.ApplyService (s : ServicesService) (accountID : String)
    (serviceIdentifier : String) (domainIdentifier : String) (settings : DomainServiceSettings) :
    Outcome ServiceResponse :=
  match domainServicePath accountID domainIdentifier serviceIdentifier with
  | (_, some err) => ⟨none, some err, []⟩
  | (path, none) =>
    let path := versioned path
    let serviceResponse : ServiceResponse := {}
    let x := s.client.post path (some (Payload.serviceSettings settings)) (none : Option Unit)
    match x.err with
    | some err => ⟨none, some err, [x.call]⟩
    | none => ⟨some { serviceResponse with HTTPResponse := x.resp }, none, [x.call]⟩

/-- `services_domains.go`: `UnapplyService`. -/
def ServicesService.UnapplyService (s : ServicesService) (accountID : String)
    (serviceIdentifier : String) (domainIdentifier : String) :
    Outcome ServiceResponse :=
  match domainServicePath accountID domainIdentifier serviceIdentifier with
  | (_, some err) => ⟨none, some err, []⟩
  | (path, none) =>
    let path := versioned path
    let serviceResponse : ServiceResponse := {}
    let x := s.client.delete path none (none : Option Unit)
    match x.err with
    | some err => ⟨none, some err, [x.call]⟩
    | none => ⟨some { serviceResponse with HTTPResponse := x.resp }, none, [x.call]⟩

/-- `registrar_auto_renewal.go`: `EnableDomainAutoRenewal`. The path builder
`registrarDomainPath` is declared outside the files under `src/` and is a
parameter. -/
def RegistrarService.EnableDomainAutoRenewal (s : RegistrarService) 
    (registrarDomainPath : String → String → String × Option Error)
    (accountID : String) (domainName : String) :
    Outcome DomainResponse :=
  match registrarDomainPath accountID domainName with
  | (_, some err) => ⟨none, some err, []⟩
  | (path, none) =>
    let path := versioned (path ++ "/auto_renewal")
    let domainResponse : DomainResponse := {}
    let x := s.client.put path none (none : Option Unit)
    match x.err with
    | some err => ⟨none, some err, [x.call]⟩
    | none => ⟨some { domainResponse with HTTPResponse := x.resp }, none, [x.call]⟩

/-- `registrar_auto_renewal.go`: `DisableDomainAutoRenewal`. The path builder
`registrarDomainPath` is declared outside the files under `src/` and is a
parameter. -/
def RegistrarService.DisableDomainAutoRenewal (s : RegistrarService) 
    (registrarDomainPath : String → String → String × Option Error)
    (accountID : String) (domainName : String) :
    Outcome DomainResponse :=
  match registrarDomainPath accountID domainName with
  | (_, some err) => ⟨none, some err, []⟩
  | (path, none) =>
    let path := versioned (path ++ "/auto_renewal")
    let domainResponse : DomainResponse := {}
    let x := s.client.delete path none (none : Option Unit)
    match x.err with
    | some err => ⟨none, some err, [x.call]⟩
    | none => ⟨some { domainResponse with HTTPResponse := x.resp }, none, [x.call]⟩

/-- `zones.go`: `ListZones`. The path is formatted from the account
identifier directly, no path builder and no identifier check is involved;
when the transport call fails the response variable is returned next to the
error. -/
def ZonesService.ListZones (s : ZonesService) (accountID : String)
    (options : Option ListOptions) :
    Outcome ZonesResponse :=
  let path := versioned ("/" ++ accountID ++ "/zones")
  let zonesResponse : ZonesResponse := {}
  match addURLQueryOptions path options with
  | (_, some err) => ⟨none, some err, []⟩
  | (path, none) =>
    let x := s.client.get path (some zonesResponse)
    let zonesResponse := s.client.decode ZonesResponse x.call zonesResponse
    match x.err with
    | some err => ⟨some zonesResponse, some err, [x.call]⟩
    | none => ⟨some { zonesResponse with HTTPResponse := x.resp }, none, [x.call]⟩

/-- `zones.go`: `GetZone`. The path is formatted from the two identifiers
directly, no path builder and no identifier check is involved. -/
def ZonesService.GetZone (s : ZonesService) (accountID : String) (zoneName : String) :
    Outcome ZoneResponse :=
  let path := versioned ("/" ++ accountID ++ "/zones/" ++ zoneName)
  let zoneResponse : ZoneResponse := {}
  let x := s.client.get path (some zoneResponse)
  let zoneResponse := s.client.decode ZoneResponse x.call zoneResponse
  match x.err with
  | some err => ⟨none, some err, [x.call]⟩
  | none => ⟨some { zoneResponse with HTTPResponse := x.resp }, none, [x.call]⟩

/-! ## Transport stubs

Two clients for evaluating operations at concrete inputs: one whose every
round trip succeeds with an empty `204` response, one whose every round trip
fails. Neither touches the decode target. -/

/-- A client whose transport answers every request with an empty `204`. -/
def okClient : Client where
  roundTrip := fun _ => (some { StatusCode := 204, Body := "" }, none)
  decode := fun _ _ obj => obj

/-- A client whose transport fails on every request. -/
def failingClient : Client where
  roundTrip := fun _ => (none, some (Error.transport "connection refused"))
  decode := fun _ _ obj => obj

/-! ## Reading a decimal numeral

The inverse of the decimal rendering of an integer, used to show that the
rendering of a record id determines the id. -/

/-- The value of a decimal digit character. -/
def digitValue (c : Char) : Nat :=
  c.toNat - 48

/-- Reading a list of decimal digits, most significant first, onto an
accumulator. -/
def readDecimal (acc : Nat) (cs : List Char) : Nat :=
  cs.foldl (fun n c => 10 * n + digitValue c) acc

/-! ## Reading a query string

The remote side of the query encoding: how a query string is cut into
parameters and unescaped. -/

/-- The bytes an escaped text stands for: `%XY` is the byte with the
hexadecimal digits `X`, `Y`, `+` is a space, any other character stands for
itself. -/
def unescapeBytes : List Char → List Nat
  | [] => []
  | c :: cs =>
    if c = '%' then
      match cs with
      | h :: l :: rest => (hexValue h * 16 + hexValue l) :: unescapeBytes rest
      | _ => []
    else if c = '+' then 32 :: unescapeBytes cs
    else c.toNat :: unescapeBytes cs

/-- The characters of a list of UTF-8 bytes, read with `pending`
continuation bytes still due for the code point begun in `acc`. -/
def utf8DecodeFrom : List Nat → Nat → Nat → List Char
  | [], _, _ => []
  | b :: bs, 0, _ =>
    if b < 128 then Char.ofNat b :: utf8DecodeFrom bs 0 0
    else if b < 224 then utf8DecodeFrom bs 1 (b - 192)
    else if b < 240 then utf8DecodeFrom bs 2 (b - 224)
    else utf8DecodeFrom bs 3 (b - 240)
  | b :: bs, 1, acc => Char.ofNat (acc * 64 + (b - 128)) :: utf8DecodeFrom bs 0 0
  | b :: bs, p + 2, acc => utf8DecodeFrom bs (p + 1) (acc * 64 + (b - 128))

/-- The characters of a list of UTF-8 bytes. -/
def utf8Decode (bs : List Nat) : List Char :=
  utf8DecodeFrom bs 0 0

/-- The text an escaped string stands for (`url.QueryUnescape`). -/
def queryUnescape (s : String) : String :=
  ⟨utf8Decode (unescapeBytes s.data)⟩

/-- The first piece of a text cut at a separator, and the pieces after
it. -/
def splitPieces (sep : Char) : List Char → List Char × List (List Char)
  | [] => ([], [])
  | c :: cs =>
    if c = sep then ([], (splitPieces sep cs).1 :: (splitPieces sep cs).2)
    else (c :: (splitPieces sep cs).1, (splitPieces sep cs).2)

/-- The pieces of a text between separators. -/
def pieces (sep : Char) (cs : List Char) : List (List Char) :=
  (splitPieces sep cs).1 :: (splitPieces sep cs).2

/-- A text cut at its first separator: what is before, what is after. -/
def breakFirst (sep : Char) : List Char → List Char × List Char
  | [] => ([], [])
  | c :: cs =>
    if c = sep then ([], cs)
    else (c :: (breakFirst sep cs).1, (breakFirst sep cs).2)

/-- The parameter an item `name=value` stands for. -/
def parseParam (item : List Char) : String × String :=
  (⟨utf8Decode (unescapeBytes (breakFirst '=' item).1)⟩,
   ⟨utf8Decode (unescapeBytes (breakFirst '=' item).2)⟩)

/-- The parameters of the items of a query: the text is cut at every `&`,
empty items are skipped, each item is cut at its first `=` and both sides
are unescaped. -/
def parseParams (cs : List Char) : List (String × String) :=
  ((pieces '&' cs).filter fun item => !item.isEmpty).map parseParam

/-- The parameters the remote side reads from what follows the path: none
unless it starts with `?`, else those of the items after the `?`. -/
def parseQuery (q : String) : List (String × String) :=
  match q.data with
  | [] => []
  | c :: cs => if c = '?' then parseParams cs else []

/-! ## Path builders: basic facts -/

theorem checkEmptyString_empty (name : String) :
    checkEmptyString name "" = some (Error.validation name) := by
  simp [checkEmptyString]

theorem checkEmptyString_nonempty (name value : String) (h : value ≠ "") :
    checkEmptyString name value = none := by
  simp [checkEmptyString, h]

theorem checkEmptyInt64_zero (name : String) :
    checkEmptyInt64 name 0 = some (Error.validation name) := by
  simp [checkEmptyInt64]

theorem checkEmptyInt64_nonzero (name : String) (value : Int) (h : value ≠ 0) :
    checkEmptyInt64 name value = none := by
  simp [checkEmptyInt64, h]

theorem domainsPath_empty : domainsPath "" = ("", some (Error.validation "accountID")) := by
  simp [domainsPath, checkEmptyString_empty]

theorem domainsPath_ok (a : String) (ha : a ≠ "") :
    domainsPath a = ("/" ++ a ++ "/domains", none) := by
  simp [domainsPath, checkEmptyString_nonempty _ _ ha]

theorem domainPath_empty_account (d : String) :
    domainPath "" d = ("", some (Error.validation "accountID")) := by
  simp [domainPath, domainsPath_empty]

theorem domainPath_empty_domain (a : String) (ha : a ≠ "") :
    domainPath a "" = ("", some (Error.validation "domainIdentifier")) := by
  simp [domainPath, domainsPath_ok a ha, checkEmptyString_empty]

theorem domainPath_ok (a d : String) (ha : a ≠ "") (hd : d ≠ "") :
    domainPath a d = ("/" ++ a ++ "/domains/" ++ d, none) := by
  simp [domainPath, domainsPath_ok a ha, checkEmptyString_nonempty _ _ hd,
    String.append_assoc]

theorem domainServicesPath_empty_account (d : String) :
    domainServicesPath "" d = ("", some (Error.validation "accountID")) := by
  simp [domainServicesPath, domainPath_empty_account]

theorem domainServicesPath_empty_domain (a : String) (ha : a ≠ "") :
    domainServicesPath a "" = ("", some (Error.validation "domainIdentifier")) := by
  simp [domainServicesPath, domainPath_empty_domain a ha]

theorem domainServicesPath_ok (a d : String) (ha : a ≠ "") (hd : d ≠ "") :
    domainServicesPath a d = ("/" ++ a ++ "/domains/" ++ d ++ "/services", none) := by
  simp [domainServicesPath, domainPath_ok a d ha hd]

theorem domainServicePath_empty_account (d s : String) :
    domainServicePath "" d s = ("", some (Error.validation "accountID")) := by
  simp [domainServicePath, domainServicesPath_empty_account]

theorem domainServicePath_empty_domain (a s : String) (ha : a ≠ "") :
    domainServicePath a "" s = ("", some (Error.validation "domainIdentifier")) := by
  simp [domainServicePath, domainServicesPath_empty_domain a ha]

theorem domainServicePath_empty_service (a d : String) (ha : a ≠ "") (hd : d ≠ "") :
    domainServicePath a d "" = ("", some (Error.validation "serviceIdentifier")) := by
  simp [domainServicePath, domainServicesPath_ok a d ha hd, checkEmptyString_empty]

theorem domainServicePath_ok (a d s : String) (ha : a ≠ "") (hd : d ≠ "") (hs : s ≠ "") :
    domainServicePath a d s = ("/" ++ a ++ "/domains/" ++ d ++ "/services/" ++ s, none) := by
  simp [domainServicePath, domainServicesPath_ok a d ha hd, checkEmptyString_nonempty _ _ hs,
    String.append_assoc]

theorem templatesPath_empty :
    templatesPath "" = ("", some (Error.validation "accountID")) := by
  simp [templatesPath, checkEmptyString_empty]

theorem templatesPath_ok (a : String) (ha : a ≠ "") :
    templatesPath a = ("/" ++ a ++ "/templates", none) := by
  simp [templatesPath, checkEmptyString_nonempty _ _ ha]

theorem templatePath_empty_account (t : String) :
    templatePath "" t = ("", some (Error.validation "accountID")) := by
  simp [templatePath, templatesPath_empty]

theorem templatePath_empty_template (a : String) (ha : a ≠ "") :
    templatePath a "" = ("", some (Error.validation "templateIdentifier")) := by
  simp [templatePath, templatesPath_ok a ha, checkEmptyString_empty]

theorem templatePath_ok (a t : String) (ha : a ≠ "") (ht : t ≠ "") :
    templatePath a t = ("/" ++ a ++ "/templates/" ++ t, none) := by
  simp [templatePath, templatesPath_ok a ha, checkEmptyString_nonempty _ _ ht,
    String.append_assoc]

theorem templateRecordsPath_empty_account (t : String) :
    templateRecordsPath "" t = ("", some (Error.validation "accountID")) := by
  simp [templateRecordsPath, templatePath_empty_account]

theorem templateRecordsPath_empty_template (a : String) (ha : a ≠ "") :
    templateRecordsPath a "" = ("", some (Error.validation "templateIdentifier")) := by
  simp [templateRecordsPath, templatePath_empty_template a ha]

theorem templateRecordsPath_ok (a t : String) (ha : a ≠ "") (ht : t ≠ "") :
    templateRecordsPath a t = ("/" ++ a ++ "/templates/" ++ t ++ "/records", none) := by
  simp [templateRecordsPath, templatePath_ok a t ha ht]

theorem templateRecordPath_empty_account (t : String) (id : Int) :
    templateRecordPath "" t id = ("", some (Error.validation "accountID")) := by
  simp [templateRecordPath, templateRecordsPath_empty_account]

theorem templateRecordPath_empty_template (a : String) (id : Int) (ha : a ≠ "") :
    templateRecordPath a "" id = ("", some (Error.validation "templateIdentifier")) := by
  simp [templateRecordPath, templateRecordsPath_empty_template a ha]

theorem templateRecordPath_zero_record (a t : String) (ha : a ≠ "") (ht : t ≠ "") :
    templateRecordPath a t 0 = ("", some (Error.validation "templateRecordID")) := by
  simp [templateRecordPath, templateRecordsPath_ok a t ha ht, checkEmptyInt64_zero]

theorem templateRecordPath_ok (a t : String) (id : Int) (ha : a ≠ "") (ht : t ≠ "")
    (hid : id ≠ 0) :
    templateRecordPath a t id
      = ("/" ++ a ++ "/templates/" ++ t ++ "/records/" ++ toString id, none) := by
  simp [templateRecordPath, templateRecordsPath_ok a t ha ht, checkEmptyInt64_nonzero _ _ hid,
    String.append_assoc]

/-! ## The dispatched request of each operation

For valid identifiers each operation makes one transport invocation; the
lemmas below give it in full. -/

theorem addURLQueryOptions_eq {α : Type} [QueryOptions α] (path : String) (options : Option α) :
    addURLQueryOptions path options = ((addURLQueryOptions path options).1, none) := by
  cases options with
  | none => rfl
  | some o =>
    cases h : QueryOptions.values o with
    | nil => simp [addURLQueryOptions, h]
    | cons kv kvs => simp [addURLQueryOptions, h]

theorem ListDomains_calls (c : Client) (a : String) (od : Option DomainListOptions)
    (ha : a ≠ "") :
    ((DomainsService.mk c).ListDomains a od).calls
      = [⟨Method.GET, (addURLQueryOptions (versioned ("/" ++ a ++ "/domains")) od).1,
          none, true⟩] := by
  simp only [DomainsService.ListDomains, domainsPath_ok a ha]
  rw [addURLQueryOptions_eq]
  simp only [Client.get, Client.send, Option.isSome]
  split <;> rfl

theorem CreateDomain_calls (c : Client) (a : String) (dom : Domain)
    (ha : a ≠ "") :
    ((DomainsService.mk c).CreateDomain a dom).calls
      = [⟨Method.POST, versioned ("/" ++ a ++ "/domains"),
          some (Payload.domain dom), true⟩] := by
  simp only [DomainsService.CreateDomain, domainsPath_ok a ha]
  simp only [Client.post, Client.send, Option.isSome]
  split <;> rfl

theorem GetDomain_calls (c : Client) (a : String) (d : String)
    (ha : a ≠ "") (hd : d ≠ "") :
    ((DomainsService.mk c).GetDomain a d).calls
      = [⟨Method.GET, versioned ("/" ++ a ++ "/domains/" ++ d),
          none, true⟩] := by
  simp only [DomainsService.GetDomain, domainPath_ok a d ha hd]
  simp only [Client.get, Client.send, Option.isSome]
  split <;> rfl

theorem DeleteDomain_calls (c : Client) (a : String) (d : String)
    (ha : a ≠ "") (hd : d ≠ "") :
    ((DomainsService.mk c).DeleteDomain a d).calls
      = [⟨Method.DELETE, versioned ("/" ++ a ++ "/domains/" ++ d),
          none, false⟩] := by
  simp only [DomainsService.DeleteDomain, domainPath_ok a d ha hd]
  simp only [Client.delete, Client.send, Option.isSome]
  split <;> rfl

theorem ListTemplates_calls (c : Client) (a : String) (o : Option ListOptions)
    (ha : a ≠ "") :
    ((TemplatesService.mk c).ListTemplates a o).calls
      = [⟨Method.GET, (addURLQueryOptions (versioned ("/" ++ a ++ "/templates")) o).1,
          none, true⟩] := by
  simp only [TemplatesService.ListTemplates, templatesPath_ok a ha]
  rw [addURLQueryOptions_eq]
  simp only [Client.get, Client.send, Option.isSome]
  split <;> rfl

theorem CreateTemplate_calls (c : Client) (a : String) (tpl : Template)
    (ha : a ≠ "") :
    ((TemplatesService.mk c).CreateTemplate a tpl).calls
      = [⟨Method.POST, versioned ("/" ++ a ++ "/templates"),
          some (Payload.template tpl), true⟩] := by
  simp only [TemplatesService.CreateTemplate, templatesPath_ok a ha]
  simp only [Client.post, Client.send, Option.isSome]
  split <;> rfl

theorem GetTemplate_calls (c : Client) (a : String) (t : String)
    (ha : a ≠ "") (ht : t ≠ "") :
    ((TemplatesService.mk c).GetTemplate a t).calls
      = [⟨Method.GET, versioned ("/" ++ a ++ "/templates/" ++ t),
          none, true⟩] := by
  simp only [TemplatesService.GetTemplate, templatePath_ok a t ha ht]
  simp only [Client.get, Client.send, Option.isSome]
  split <;> rfl

theorem UpdateTemplate_calls (c : Client) (a : String) (t : String) (tpl : Template)
    (ha : a ≠ "") (ht : t ≠ "") :
    ((TemplatesService.mk c).UpdateTemplate a t tpl).calls
      = [⟨Method.PATCH, versioned ("/" ++ a ++ "/templates/" ++ t),
          some (Payload.template tpl), true⟩] := by
  simp only [TemplatesService.UpdateTemplate, templatePath_ok a t ha ht]
  simp only [Client.patch, Client.send, Option.isSome]
  split <;> rfl

theorem DeleteTemplate_calls (c : Client) (a : String) (t : String)
    (ha : a ≠ "") (ht : t ≠ "") :
    ((TemplatesService.mk c).DeleteTemplate a t).calls
      = [⟨Method.DELETE, versioned ("/" ++ a ++ "/templates/" ++ t),
          none, false⟩] := by
  simp only [TemplatesService.DeleteTemplate, templatePath_ok a t ha ht]
  simp only [Client.delete, Client.send, Option.isSome]
  split <;> rfl

theorem ListTemplateRecords_calls (c : Client) (a : String) (t : String) (o : Option ListOptions)
    (ha : a ≠ "") (ht : t ≠ "") :
    ((TemplatesService.mk c).ListTemplateRecords a t o).calls
      = [⟨Method.GET,
            (addURLQueryOptions (versioned ("/" ++ a ++ "/templates/" ++ t ++ "/records")) o).1,
          none, true⟩] := by
  simp only [TemplatesService.ListTemplateRecords, templateRecordsPath_ok a t ha ht]
  rw [addURLQueryOptions_eq]
  simp only [Client.get, Client.send, Option.isSome]
  split <;> rfl

theorem CreateTemplateRecord_calls (c : Client) (a : String) (t : String) (rec : TemplateRecord)
    (ha : a ≠ "") (ht : t ≠ "") :
    ((TemplatesService.mk c).CreateTemplateRecord a t rec).calls
      = [⟨Method.POST, versioned ("/" ++ a ++ "/templates/" ++ t ++ "/records"),
          some (Payload.templateRecord rec), true⟩] := by
  simp only [TemplatesService.CreateTemplateRecord, templateRecordsPath_ok a t ha ht]
  simp only [Client.post, Client.send, Option.isSome]
  split <;> rfl

theorem GetTemplateRecord_calls (c : Client) (a : String) (t : String) (id : Int)
    (ha : a ≠ "") (ht : t ≠ "") (hid : id ≠ 0) :
    ((TemplatesService.mk c).GetTemplateRecord a t id).calls
      = [⟨Method.GET, versioned ("/" ++ a ++ "/templates/" ++ t ++ "/records/" ++ toString id),
          none, true⟩] := by
  simp only [TemplatesService.GetTemplateRecord, templateRecordPath_ok a t id ha ht hid]
  simp only [Client.get, Client.send, Option.isSome]
  split <;> rfl

theorem DeleteTemplateRecord_calls (c : Client) (a : String) (t : String) (id : Int)
    (ha : a ≠ "") (ht : t ≠ "") (hid : id ≠ 0) :
    ((TemplatesService.mk c).DeleteTemplateRecord a t id).calls
      = [⟨Method.DELETE, versioned ("/" ++ a ++ "/templates/" ++ t ++ "/records/" ++ toString id),
          none, false⟩] := by
  simp only [TemplatesService.DeleteTemplateRecord, templateRecordPath_ok a t id ha ht hid]
  simp only [Client.delete, Client.send, Option.isSome]
  split <;> rfl

theorem ApplyTemplate_calls (c : Client) (a : String) (d : String) (t : String)
    (ha : a ≠ "") (hd : d ≠ "") :
    ((TemplatesService.mk c).ApplyTemplate a t d).calls
      = [⟨Method.POST, versioned ("/" ++ a ++ "/domains/" ++ d ++ "/templates"),
          none, false⟩] := by
  simp only [TemplatesService.ApplyTemplate, domainPath_ok a d ha hd]
  simp only [Client.post, Client.send, Option.isSome]
  split <;> rfl

theorem AppliedServices_calls (c : Client) (a : String) (d : String) (o : Option ListOptions)
    (ha : a ≠ "") (hd : d ≠ "") :
    ((ServicesService.mk c).AppliedServices a d o).calls
      = [⟨Method.GET,
            (addURLQueryOptions (versioned ("/" ++ a ++ "/domains/" ++ d ++ "/services")) o).1,
          none, true⟩] := by
  simp only [ServicesService.AppliedServices, domainServicesPath_ok a d ha hd]
  rw [addURLQueryOptions_eq]
  simp only [Client.get, Client.send, Option.isSome]
  split <;> rfl

theorem ApplyService_calls (c : Client) (a : String) (d : String) (sv : String)
    (settings : DomainServiceSettings)
    (ha : a ≠ "") (hd : d ≠ "") (hs : sv ≠ "") :
    ((ServicesService.mk c).ApplyService a sv d settings).calls
      = [⟨Method.POST, versioned ("/" ++ a ++ "/domains/" ++ d ++ "/services/" ++ sv),
          some (Payload.serviceSettings settings), false⟩] := by
  simp only [ServicesService.ApplyService, domainServicePath_ok a d sv ha hd hs]
  simp only [Client.post, Client.send, Option.isSome]
  split <;> rfl

theorem UnapplyService_calls (c : Client) (a : String) (d : String) (sv : String)
    (ha : a ≠ "") (hd : d ≠ "") (hs : sv ≠ "") :
    ((ServicesService.mk c).UnapplyService a sv d).calls
      = [⟨Method.DELETE, versioned ("/" ++ a ++ "/domains/" ++ d ++ "/services/" ++ sv),
          none, false⟩] := by
  simp only [ServicesService.UnapplyService, domainServicePath_ok a d sv ha hd hs]
  simp only [Client.delete, Client.send, Option.isSome]
  split <;> rfl

theorem ListZones_calls (c : Client) (a : String) (o : Option ListOptions) :
    ((ZonesService.mk c).ListZones a o).calls
      = [⟨Method.GET, (addURLQueryOptions (versioned ("/" ++ a ++ "/zones")) o).1,
          none, true⟩] := by
  simp only [ZonesService.ListZones]
  rw [addURLQueryOptions_eq]
  simp only [Client.get, Client.send, Option.isSome]
  split <;> rfl

theorem GetZone_calls (c : Client) (a z : String) :
    ((ZonesService.mk c).GetZone a z).calls
      = [⟨Method.GET, versioned ("/" ++ a ++ "/zones/" ++ z), none, true⟩] := by
  simp only [ZonesService.GetZone, Client.get, Client.send, Option.isSome]
  split <;> rfl

theorem EnableDomainAutoRenewal_calls (c : Client)
    (registrarDomainPath : String → String → String × Option Error) (a d : String)
    (hr : (registrarDomainPath a d).2 = none) :
    ((RegistrarService.mk c).EnableDomainAutoRenewal registrarDomainPath a d).calls
      = [⟨Method.PUT, versioned ((registrarDomainPath a d).1 ++ "/auto_renewal"),
          none, false⟩] := by
  rcases hb : registrarDomainPath a d with ⟨p, _ | e⟩
  · simp only [RegistrarService.EnableDomainAutoRenewal, hb, Client.put, Client.send,
      Option.isSome]
    split <;> rfl
  · simp [hb] at hr

theorem DisableDomainAutoRenewal_calls (c : Client)
    (registrarDomainPath : String → String → String × Option Error) (a d : String)
    (hr : (registrarDomainPath a d).2 = none) :
    ((RegistrarService.mk c).DisableDomainAutoRenewal registrarDomainPath a d).calls
      = [⟨Method.DELETE, versioned ((registrarDomainPath a d).1 ++ "/auto_renewal"),
          none, false⟩] := by
  rcases hb : registrarDomainPath a d with ⟨p, _ | e⟩
  · simp only [RegistrarService.DisableDomainAutoRenewal, hb, Client.delete, Client.send,
      Option.isSome]
    split <;> rfl
  · simp [hb] at hr

/-! ## Decimal rendering is injective -/

theorem digitValue_digitChar (k : Nat) (hk : k < 10) : digitValue (Nat.digitChar k) = k := by
  interval_cases k <;> rfl

theorem readDecimal_toDigitsCore (fuel : Nat) :
    ∀ (n : Nat) (ds : List Char), n < fuel →
      readDecimal 0 (Nat.toDigitsCore 10 fuel n ds) = readDecimal n ds := by
  induction fuel with
  | zero => intro n ds h; omega
  | succ fuel ih =>
    intro n ds h
    unfold Nat.toDigitsCore
    by_cases h0 : n / 10 = 0
    · simp only [h0, if_true]
      have hn : n % 10 = n := by omega
      have hd := digitValue_digitChar (n % 10) (Nat.mod_lt _ (by decide))
      rw [hn] at hd
      simp only [readDecimal, List.foldl_cons, hn, hd, Nat.mul_zero, Nat.zero_add]
    · simp only [h0, if_false]
      rw [ih (n / 10) _ (by omega)]
      simp only [readDecimal, List.foldl_cons,
        digitValue_digitChar (n % 10) (Nat.mod_lt _ (by decide))]
      congr 1
      omega

theorem readDecimal_repr (n : Nat) : readDecimal 0 (toString n).data = n := by
  show readDecimal 0 (Nat.repr n).data = n
  simp only [Nat.repr, Nat.toDigits, List.asString]
  exact readDecimal_toDigitsCore (n + 1) n [] (by omega)

theorem toString_nat_injective (m k : Nat) (h : toString m = toString k) : m = k := by
  have := congrArg (fun s : String => readDecimal 0 s.data) h
  simpa [readDecimal_repr] using this

theorem toString_int_injective (i j : Int) (h : toString i = toString j) : i = j := by
  cases i with
  | ofNat m =>
    cases j with
    | ofNat k =>
      have : toString m = toString k := h
      rw [toString_nat_injective m k this]
    | negSucc k =>
      exfalso
      have h' : toString m = "-" ++ toString (k + 1) := h
      have e := congrArg (fun s : String => readDecimal 0 s.data) h'
      simp only [readDecimal_repr, String.data_append] at e
      have e2 : readDecimal 0 ("-".data ++ (toString (k + 1)).data) = k + 1 := by
        show readDecimal 0 ('-' :: (toString (k + 1)).data) = k + 1
        simp only [readDecimal, List.foldl_cons]
        exact readDecimal_repr (k + 1)
      rw [e2] at e
      subst e
      have l := congrArg String.length h'
      rw [String.length_append] at l
      have l1 : "-".length = 1 := by decide
      omega
  | negSucc m =>
    cases j with
    | ofNat k =>
      exfalso
      have h' : "-" ++ toString (m + 1) = toString k := h
      have e := congrArg (fun s : String => readDecimal 0 s.data) h'
      simp only [readDecimal_repr, String.data_append] at e
      have e2 : readDecimal 0 ("-".data ++ (toString (m + 1)).data) = m + 1 := by
        show readDecimal 0 ('-' :: (toString (m + 1)).data) = m + 1
        simp only [readDecimal, List.foldl_cons]
        exact readDecimal_repr (m + 1)
      rw [e2] at e
      subst e
      have l := congrArg String.length h'
      rw [String.length_append] at l
      have l1 : "-".length = 1 := by decide
      omega
    | negSucc k =>
      have h' : "-" ++ toString (m + 1) = "-" ++ toString (k + 1) := h
      have e : toString (m + 1) = toString (k + 1) := by
        apply String.ext
        have := congrArg String.data h'
        simpa [String.data_append] using this
      have := toString_nat_injective _ _ e
      have : m = k := by omega
      rw [this]

/-! ## Splitting a path at its first separator -/

theorem list_segment_split (x : List Char) :
    ∀ (y r r' : List Char), '/' ∉ x → '/' ∉ y → x ++ '/' :: r = y ++ '/' :: r' →
      x = y ∧ r = r' := by
  induction x with
  | nil =>
    intro y r r' _ hy h
    cases y with
    | nil => simpa using h
    | cons c y =>
      simp only [List.nil_append, List.cons_append, List.cons.injEq] at h
      exact absurd (h.1 ▸ List.mem_cons_self _ _) hy
  | cons c x ih =>
    intro y r r' hx hy h
    cases y with
    | nil =>
      simp only [List.nil_append, List.cons_append, List.cons.injEq] at h
      exact absurd (h.1 ▸ List.mem_cons_self _ _) hx
    | cons c' y =>
      simp only [List.cons_append, List.cons.injEq] at h
      have hx' : '/' ∉ x := fun hm => hx (List.mem_cons_of_mem _ hm)
      have hy' : '/' ∉ y := fun hm => hy (List.mem_cons_of_mem _ hm)
      obtain ⟨e1, e2⟩ := ih y r r' hx' hy' h.2
      exact ⟨by rw [h.1, e1], e2⟩

theorem string_append_left_cancel (p x y : String) (h : p ++ x = p ++ y) : x = y := by
  apply String.ext
  have := congrArg String.data h
  simpa [String.data_append] using this

theorem string_segment_split (a a' r r' : String) (ha : '/' ∉ a.toList)
    (ha' : '/' ∉ a'.toList) (h : a ++ ("/" ++ r) = a' ++ ("/" ++ r')) :
    a = a' ∧ r = r' := by
  have hd := congrArg String.data h
  simp only [String.data_append] at hd
  have hd' : a.data ++ '/' :: r.data = a'.data ++ '/' :: r'.data := hd
  obtain ⟨e1, e2⟩ := list_segment_split a.data a'.data r.data r'.data ha ha' hd'
  exact ⟨String.ext e1, String.ext e2⟩

theorem mem_toList_append_right (c : Char) (x y : String) (h : c ∈ y.toList) :
    c ∈ (x ++ y).toList := by
  show c ∈ (x ++ y).data
  rw [String.data_append]
  exact List.mem_append_right _ h

theorem keyed_path_split (k a a' r r' : String) (sa : '/' ∉ a.toList)
    (sa' : '/' ∉ a'.toList)
    (h : "/" ++ (a ++ ("/" ++ (k ++ r))) = "/" ++ (a' ++ ("/" ++ (k ++ r')))) :
    a = a' ∧ r = r' := by
  obtain ⟨e1, e2⟩ :=
    string_segment_split a a' (k ++ r) (k ++ r') sa sa' (string_append_left_cancel "/" _ _ h)
  exact ⟨e1, string_append_left_cancel k r r' e2⟩

theorem domains_path_split (a a' r r' : String) (sa : '/' ∉ a.toList)
    (sa' : '/' ∉ a'.toList) (h : "/" ++ a ++ "/domains/" ++ r = "/" ++ a' ++ "/domains/" ++ r') :
    a = a' ∧ r = r' := by
  have e : "/domains/" = "/" ++ "domains/" := by decide
  rw [e] at h
  simp only [String.append_assoc] at h
  exact keyed_path_split "domains/" a a' r r' sa sa' h

theorem templates_path_split (a a' r r' : String) (sa : '/' ∉ a.toList)
    (sa' : '/' ∉ a'.toList)
    (h : "/" ++ a ++ "/templates/" ++ r = "/" ++ a' ++ "/templates/" ++ r') :
    a = a' ∧ r = r' := by
  have e : "/templates/" = "/" ++ "templates/" := by decide
  rw [e] at h
  simp only [String.append_assoc] at h
  exact keyed_path_split "templates/" a a' r r' sa sa' h

theorem records_tail_split (t t' : String) (id id' : Int) (st : '/' ∉ t.toList)
    (st' : '/' ∉ t'.toList)
    (h : t ++ "/records/" ++ toString id = t' ++ "/records/" ++ toString id') :
    t = t' ∧ id = id' := by
  have e : "/records/" = "/" ++ "records/" := by decide
  rw [e] at h
  simp only [String.append_assoc] at h
  obtain ⟨e1, e2⟩ := string_segment_split t t' _ _ st st' h
  exact ⟨e1, toString_int_injective id id' (string_append_left_cancel "records/" _ _ e2)⟩

/-! ## Query escaping can be undone -/

/-- Query escaping and its inverse on sample texts: a space becomes `+`,
a reserved character and every byte of a non-ASCII character become `%XY`. -/
theorem queryEscape_samples :
    queryEscape "a b&c" = "a+b%26c" ∧
    queryEscape "x&page=9" = "x%26page%3D9" ∧
    queryEscape "é€" = "%C3%A9%E2%82%AC" ∧
    queryEscape "example-1_2.3~" = "example-1_2.3~" ∧
    queryUnescape "a+b%26c" = "a b&c" ∧
    queryUnescape "%C3%A9%E2%82%AC" = "é€" ∧
    utf8Bytes '😀' = [240, 159, 152, 128] ∧
    parseQuery "?name_like=a+b%26c&page=2" = [("name_like", "a b&c"), ("page", "2")] := by
  decide

theorem char_toNat_lt (c : Char) : c.toNat < 1114112 := by
  have h := c.valid
  simp only [UInt32.isValidChar, Nat.isValidChar] at h
  have e : c.toNat = c.val.toNat := rfl
  omega

theorem char_eq_of_toNat {c d : Char} (h : c.toNat = d.toNat) : c = d := by
  rw [← Char.ofNat_toNat c, ← Char.ofNat_toNat d, h]

theorem hexValue_hexDigit (k : Nat) (hk : k < 16) : hexValue (hexDigit k) = k := by
  interval_cases k <;> rfl

theorem utf8Bytes_lt (c : Char) : ∀ b ∈ utf8Bytes c, b < 256 := by
  have hc := char_toNat_lt c
  intro b hb
  simp only [utf8Bytes] at hb
  split_ifs at hb <;> simp only [List.mem_cons, List.mem_singleton, List.not_mem_nil,
    or_false] at hb <;> omega

theorem unescapeBytes_percent (h l : Char) (rest : List Char) :
    unescapeBytes ('%' :: h :: l :: rest)
      = (hexValue h * 16 + hexValue l) :: unescapeBytes rest := by
  rw [unescapeBytes.eq_def]
  simp only [if_true]

theorem unescapeBytes_plus (rest : List Char) :
    unescapeBytes ('+' :: rest) = 32 :: unescapeBytes rest := by
  rw [unescapeBytes.eq_def]
  have h : ¬ ('+' = '%') := by decide
  simp only [h, if_false, if_true]

theorem unescapeBytes_other (c : Char) (rest : List Char) (h1 : c ≠ '%') (h2 : c ≠ '+') :
    unescapeBytes (c :: rest) = c.toNat :: unescapeBytes rest := by
  rw [unescapeBytes.eq_def]
  simp only [h1, h2, if_false]

theorem unescapeBytes_escapeBytes (bs : List Nat) (rest : List Char)
    (h : ∀ b ∈ bs, b < 256) :
    unescapeBytes (escapeBytes bs ++ rest) = bs ++ unescapeBytes rest := by
  induction bs with
  | nil => rfl
  | cons b bs ih =>
    have hb : b < 256 := h b (List.mem_cons_self _ _)
    have ih' := ih (fun x hx => h x (List.mem_cons_of_mem _ hx))
    have e : b / 16 * 16 + b % 16 = b := by omega
    simp only [escapeBytes, List.cons_append, unescapeBytes_percent, ih',
      hexValue_hexDigit (b / 16) (by omega), hexValue_hexDigit (b % 16) (by omega), e]

theorem unescapeBytes_escapeChar (c : Char) (rest : List Char) :
    unescapeBytes (escapeChar c ++ rest) = utf8Bytes c ++ unescapeBytes rest := by
  unfold escapeChar
  by_cases hu : isUnreserved c = true
  · have hn : (48 ≤ c.toNat ∧ c.toNat ≤ 57) ∨ (65 ≤ c.toNat ∧ c.toNat ≤ 90) ∨
        (97 ≤ c.toNat ∧ c.toNat ≤ 122) ∨ c.toNat = 45 ∨ c.toNat = 95 ∨ c.toNat = 46 ∨
        c.toNat = 126 := by
      simpa [isUnreserved] using hu
    have h1 : c ≠ '%' := by
      intro e
      have : c.toNat = 37 := by rw [e]; rfl
      omega
    have h2 : c ≠ '+' := by
      intro e
      have : c.toNat = 43 := by rw [e]; rfl
      omega
    have h3 : c.toNat < 128 := by omega
    simp only [hu, if_true, List.singleton_append, unescapeBytes_other c rest h1 h2,
      utf8Bytes, h3]
  · by_cases hs : c = ' '
    · subst hs
      have e : utf8Bytes ' ' = [32] := by decide
      simp only [hu, if_true, if_false, List.singleton_append, unescapeBytes_plus, e,
        Bool.false_eq_true]
    · simp only [hu, hs, if_false, Bool.false_eq_true]
      exact unescapeBytes_escapeBytes _ _ (utf8Bytes_lt c)

theorem utf8Decode_utf8Bytes (c : Char) (bs : List Nat) :
    utf8Decode (utf8Bytes c ++ bs) = c :: utf8Decode bs := by
  have hc := char_toNat_lt c
  unfold utf8Bytes utf8Decode
  by_cases h1 : c.toNat < 128
  · simp only [h1, if_true, List.singleton_append, utf8DecodeFrom, Char.ofNat_toNat]
  · by_cases h2 : c.toNat < 2048
    · have a1 : ¬ (192 + c.toNat / 64 < 128) := by omega
      have a2 : 192 + c.toNat / 64 < 224 := by omega
      have e : (192 + c.toNat / 64 - 192) * 64 + (128 + c.toNat % 64 - 128) = c.toNat := by
        omega
      simp only [h1, h2, if_true, if_false, List.cons_append, List.nil_append,
        utf8DecodeFrom, a1, a2, e, Char.ofNat_toNat]
    · by_cases h3 : c.toNat < 65536
      · have a1 : ¬ (224 + c.toNat / 4096 < 128) := by omega
        have a2 : ¬ (224 + c.toNat / 4096 < 224) := by omega
        have a3 : 224 + c.toNat / 4096 < 240 := by omega
        have e : ((224 + c.toNat / 4096 - 224) * 64 + (128 + c.toNat / 64 % 64 - 128)) * 64
            + (128 + c.toNat % 64 - 128) = c.toNat := by omega
        simp only [h1, h2, h3, if_true, if_false, List.cons_append, List.nil_append,
          utf8DecodeFrom, a1, a2, a3, e, Char.ofNat_toNat]
      · have a1 : ¬ (240 + c.toNat / 262144 < 128) := by omega
        have a2 : ¬ (240 + c.toNat / 262144 < 224) := by omega
        have a3 : ¬ (240 + c.toNat / 262144 < 240) := by omega
        have e : (((240 + c.toNat / 262144 - 240) * 64
            + (128 + c.toNat / 4096 % 64 - 128)) * 64
            + (128 + c.toNat / 64 % 64 - 128)) * 64 + (128 + c.toNat % 64 - 128)
            = c.toNat := by omega
        simp only [h1, h2, h3, if_false, List.cons_append, List.nil_append,
          utf8DecodeFrom, a1, a2, a3, e, Char.ofNat_toNat]

theorem utf8Decode_unescapeBytes_escapeChars (cs : List Char) :
    utf8Decode (unescapeBytes (escapeChars cs)) = cs := by
  induction cs with
  | nil => rfl
  | cons c cs ih =>
    simp only [escapeChars, unescapeBytes_escapeChar, utf8Decode_utf8Bytes, ih]

theorem queryUnescape_queryEscape (s : String) : queryUnescape (queryEscape s) = s := by
  apply String.ext
  simp only [queryUnescape, queryEscape, utf8Decode_unescapeBytes_escapeChars]

/-! ## A query string is read back as its parameters -/

theorem hexDigit_unreserved (k : Nat) (hk : k < 16) : isUnreserved (hexDigit k) = true := by
  interval_cases k <;> rfl

theorem escapeBytes_safe (bs : List Nat) (h : ∀ b ∈ bs, b < 256) :
    ∀ x ∈ escapeBytes bs, isUnreserved x = true ∨ x = '+' ∨ x = '%' := by
  induction bs with
  | nil => intro x hx; simp [escapeBytes] at hx
  | cons b bs ih =>
    have hb : b < 256 := h b (List.mem_cons_self _ _)
    intro x hx
    simp only [escapeBytes, List.mem_cons] at hx
    rcases hx with rfl | rfl | rfl | hx
    · exact Or.inr (Or.inr rfl)
    · exact Or.inl (hexDigit_unreserved _ (by omega))
    · exact Or.inl (hexDigit_unreserved _ (by omega))
    · exact ih (fun y hy => h y (List.mem_cons_of_mem _ hy)) x hx

theorem escapeChar_safe (c : Char) :
    ∀ x ∈ escapeChar c, isUnreserved x = true ∨ x = '+' ∨ x = '%' := by
  intro x hx
  unfold escapeChar at hx
  by_cases hu : isUnreserved c = true
  · simp only [hu, if_true, List.mem_singleton] at hx
    exact Or.inl (hx ▸ hu)
  · by_cases hs : c = ' '
    · simp only [hu, if_false, Bool.false_eq_true] at hx
      simp only [hs, if_true, List.mem_singleton] at hx
      exact Or.inr (Or.inl hx)
    · simp only [hu, hs, if_false, Bool.false_eq_true] at hx
      exact escapeBytes_safe _ (utf8Bytes_lt c) x hx

theorem escapeChars_safe (cs : List Char) :
    ∀ x ∈ escapeChars cs, isUnreserved x = true ∨ x = '+' ∨ x = '%' := by
  induction cs with
  | nil => intro x hx; simp [escapeChars] at hx
  | cons c cs ih =>
    intro x hx
    simp only [escapeChars, List.mem_append] at hx
    rcases hx with hx | hx
    · exact escapeChar_safe c x hx
    · exact ih x hx

theorem amp_not_mem_escapeChars (cs : List Char) : '&' ∉ escapeChars cs := by
  intro h
  rcases escapeChars_safe cs _ h with h | h | h
  · exact absurd h (by decide)
  · exact absurd h (by decide)
  · exact absurd h (by decide)

theorem eq_not_mem_escapeChars (cs : List Char) : '=' ∉ escapeChars cs := by
  intro h
  rcases escapeChars_safe cs _ h with h | h | h
  · exact absurd h (by decide)
  · exact absurd h (by decide)
  · exact absurd h (by decide)

theorem splitPieces_of_not_mem (sep : Char) (x : List Char) (h : sep ∉ x) :
    splitPieces sep x = (x, []) := by
  induction x with
  | nil => rfl
  | cons c x ih =>
    have hc : c ≠ sep := fun e => h (e ▸ List.mem_cons_self _ _)
    have hx : sep ∉ x := fun hm => h (List.mem_cons_of_mem _ hm)
    simp only [splitPieces, hc, if_false, ih hx]

theorem pieces_append (sep : Char) (x rest : List Char) (h : sep ∉ x) :
    pieces sep (x ++ sep :: rest) = x :: pieces sep rest := by
  unfold pieces
  induction x with
  | nil => simp only [List.nil_append, splitPieces, if_true]
  | cons c x ih =>
    have hc : c ≠ sep := fun e => h (e ▸ List.mem_cons_self _ _)
    have hx : sep ∉ x := fun hm => h (List.mem_cons_of_mem _ hm)
    have ih' := ih hx
    simp only [List.cons.injEq] at ih'
    have e : (c :: x) ++ sep :: rest = c :: (x ++ sep :: rest) := rfl
    rw [e]
    simp only [splitPieces, hc, if_false, ih'.1, ih'.2]

theorem breakFirst_append (sep : Char) (x y : List Char) (h : sep ∉ x) :
    breakFirst sep (x ++ sep :: y) = (x, y) := by
  induction x with
  | nil => simp only [List.nil_append, breakFirst, if_true]
  | cons c x ih =>
    have hc : c ≠ sep := fun e => h (e ▸ List.mem_cons_self _ _)
    have hx : sep ∉ x := fun hm => h (List.mem_cons_of_mem _ hm)
    have e : (c :: x) ++ sep :: y = c :: (x ++ sep :: y) := rfl
    rw [e]
    simp only [breakFirst, hc, if_false, ih hx]

theorem parseParam_encodeParam (kv : String × String) : parseParam (encodeParam kv) = kv := by
  unfold parseParam encodeParam
  rw [breakFirst_append '=' _ _ (eq_not_mem_escapeChars _)]
  simp only [utf8Decode_unescapeBytes_escapeChars]

theorem amp_not_mem_encodeParam (kv : String × String) : '&' ∉ encodeParam kv := by
  unfold encodeParam
  intro h
  rcases List.mem_append.1 h with h | h
  · exact amp_not_mem_escapeChars _ h
  · rcases List.mem_cons.1 h with h | h
    · exact absurd h (by decide)
    · exact amp_not_mem_escapeChars _ h

theorem pieces_encode (kvs : List (String × String)) :
    ∀ kv : String × String,
      pieces '&' (encodeParam kv ++ encodeMore kvs) = (kv :: kvs).map encodeParam := by
  induction kvs with
  | nil =>
    intro kv
    simp only [encodeMore, List.append_nil, pieces,
      splitPieces_of_not_mem '&' _ (amp_not_mem_encodeParam kv), List.map]
  | cons kv' kvs ih =>
    intro kv
    simp only [encodeMore, pieces_append '&' _ _ (amp_not_mem_encodeParam kv), ih kv',
      List.map]

theorem encodeParam_ne_nil (kv : String × String) : (encodeParam kv).isEmpty = false := by
  unfold encodeParam
  cases h : escapeChars kv.1.data <;> rfl

theorem parseParams_encode (kv : String × String) (kvs : List (String × String)) :
    parseParams (encodeParam kv ++ encodeMore kvs) = kv :: kvs := by
  unfold parseParams
  rw [pieces_encode kvs kv]
  have hf : ∀ l : List (String × String),
      ((l.map encodeParam).filter fun item => !item.isEmpty) = l.map encodeParam := by
    intro l
    apply List.filter_eq_self.2
    intro item hi
    rcases List.mem_map.1 hi with ⟨p, -, rfl⟩
    simp [encodeParam_ne_nil p]
  rw [hf]
  have hm : ∀ l : List (String × String), (l.map encodeParam).map parseParam = l := by
    intro l
    induction l with
    | nil => rfl
    | cons p l ih => simp only [List.map, parseParam_encodeParam, ih]
  exact hm _

theorem parseQuery_encodeQuery (kv : String × String) (kvs : List (String × String)) :
    parseQuery ("?" ++ encodeQuery (kv :: kvs)) = kv :: kvs := by
  have e : ("?" ++ encodeQuery (kv :: kvs)).data = '?' :: (encodeParam kv ++ encodeMore kvs) :=
    rfl
  simp only [parseQuery, e, if_true, parseParams_encode]

/-! ## C1: the path builders fail exactly on an empty or zero identifier -/

/-- C1. Each path builder returns an error if and only if one of its
identifiers is empty (a string) or zero (the record id). When it fails the
returned path is the empty string and the error is the validation error
naming the first offending identifier in path order: `accountID`, then
`domainIdentifier` or `templateIdentifier`, then `serviceIdentifier` or
`templateRecordID`; the identifiers after the first offending one play no
part in the result. -/
theorem path_builders_fail_iff_first_offending (a d t s : String) (id : Int) :
    -- domainsPath
    (((domainsPath a).2 ≠ none ↔ a = "") ∧
      (a = "" → domainsPath a = ("", some (Error.validation "accountID")))) ∧
    -- domainPath
    (((domainPath a d).2 ≠ none ↔ (a = "" ∨ d = "")) ∧
      (a = "" → domainPath a d = ("", some (Error.validation "accountID"))) ∧
      (a ≠ "" → d = "" →
        domainPath a d = ("", some (Error.validation "domainIdentifier")))) ∧
    -- domainServicesPath
    (((domainServicesPath a d).2 ≠ none ↔ (a = "" ∨ d = "")) ∧
      (a = "" → domainServicesPath a d = ("", some (Error.validation "accountID"))) ∧
      (a ≠ "" → d = "" →
        domainServicesPath a d = ("", some (Error.validation "domainIdentifier")))) ∧
    -- domainServicePath
    (((domainServicePath a d s).2 ≠ none ↔ (a = "" ∨ d = "" ∨ s = "")) ∧
      (a = "" → domainServicePath a d s = ("", some (Error.validation "accountID"))) ∧
      (a ≠ "" → d = "" →
        domainServicePath a d s = ("", some (Error.validation "domainIdentifier"))) ∧
      (a ≠ "" → d ≠ "" → s = "" →
        domainServicePath a d s = ("", some (Error.validation "serviceIdentifier")))) ∧
    -- templatesPath
    (((templatesPath a).2 ≠ none ↔ a = "") ∧
      (a = "" → templatesPath a = ("", some (Error.validation "accountID")))) ∧
    -- templatePath
    (((templatePath a t).2 ≠ none ↔ (a = "" ∨ t = "")) ∧
      (a = "" → templatePath a t = ("", some (Error.validation "accountID"))) ∧
      (a ≠ "" → t = "" →
        templatePath a t = ("", some (Error.validation "templateIdentifier")))) ∧
    -- templateRecordsPath
    (((templateRecordsPath a t).2 ≠ none ↔ (a = "" ∨ t = "")) ∧
      (a = "" → templateRecordsPath a t = ("", some (Error.validation "accountID"))) ∧
      (a ≠ "" → t = "" →
        templateRecordsPath a t = ("", some (Error.validation "templateIdentifier")))) ∧
    -- templateRecordPath
    (((templateRecordPath a t id).2 ≠ none ↔ (a = "" ∨ t = "" ∨ id = 0)) ∧
      (a = "" → templateRecordPath a t id = ("", some (Error.validation "accountID"))) ∧
      (a ≠ "" → t = "" →
        templateRecordPath a t id = ("", some (Error.validation "templateIdentifier"))) ∧
      (a ≠ "" → t ≠ "" → id = 0 →
        templateRecordPath a t id = ("", some (Error.validation "templateRecordID")))) := by
  refine ⟨⟨?_, ?_⟩, ⟨?_, ?_, ?_⟩, ⟨?_, ?_, ?_⟩, ⟨?_, ?_, ?_, ?_⟩, ⟨?_, ?_⟩, ⟨?_, ?_, ?_⟩,
    ⟨?_, ?_, ?_⟩, ⟨?_, ?_, ?_, ?_⟩⟩
  · by_cases ha : a = ""
    · subst ha; simp [domainsPath_empty]
    · simp [domainsPath_ok a ha, ha]
  · rintro rfl; exact domainsPath_empty
  · by_cases ha : a = ""
    · subst ha; simp [domainPath_empty_account]
    · by_cases hd : d = ""
      · subst hd; simp [domainPath_empty_domain a ha]
      · simp [domainPath_ok a d ha hd, ha, hd]
  · rintro rfl; exact domainPath_empty_account d
  · rintro ha rfl; exact domainPath_empty_domain a ha
  · by_cases ha : a = ""
    · subst ha; simp [domainServicesPath_empty_account]
    · by_cases hd : d = ""
      · subst hd; simp [domainServicesPath_empty_domain a ha]
      · simp [domainServicesPath_ok a d ha hd, ha, hd]
  · rintro rfl; exact domainServicesPath_empty_account d
  · rintro ha rfl; exact domainServicesPath_empty_domain a ha
  · by_cases ha : a = ""
    · subst ha; simp [domainServicePath_empty_account]
    · by_cases hd : d = ""
      · subst hd; simp [domainServicePath_empty_domain a s ha]
      · by_cases hs : s = ""
        · subst hs; simp [domainServicePath_empty_service a d ha hd]
        · simp [domainServicePath_ok a d s ha hd hs, ha, hd, hs]
  · rintro rfl; exact domainServicePath_empty_account d s
  · rintro ha rfl; exact domainServicePath_empty_domain a s ha
  · rintro ha hd rfl; exact domainServicePath_empty_service a d ha hd
  · by_cases ha : a = ""
    · subst ha; simp [templatesPath_empty]
    · simp [templatesPath_ok a ha, ha]
  · rintro rfl; exact templatesPath_empty
  · by_cases ha : a = ""
    · subst ha; simp [templatePath_empty_account]
    · by_cases ht : t = ""
      · subst ht; simp [templatePath_empty_template a ha]
      · simp [templatePath_ok a t ha ht, ha, ht]
  · rintro rfl; exact templatePath_empty_account t
  · rintro ha rfl; exact templatePath_empty_template a ha
  · by_cases ha : a = ""
    · subst ha; simp [templateRecordsPath_empty_account]
    · by_cases ht : t = ""
      · subst ht; simp [templateRecordsPath_empty_template a ha]
      · simp [templateRecordsPath_ok a t ha ht, ha, ht]
  · rintro rfl; exact templateRecordsPath_empty_account t
  · rintro ha rfl; exact templateRecordsPath_empty_template a ha
  · by_cases ha : a = ""
    · subst ha; simp [templateRecordPath_empty_account]
    · by_cases ht : t = ""
      · subst ht; simp [templateRecordPath_empty_template a id ha]
      · by_cases hid : id = 0
        · subst hid; simp [templateRecordPath_zero_record a t ha ht]
        · simp [templateRecordPath_ok a t id ha ht hid, ha, ht, hid]
  · rintro rfl; exact templateRecordPath_empty_account t id
  · rintro ha rfl; exact templateRecordPath_empty_template a id ha
  · rintro ha ht rfl; exact templateRecordPath_zero_record a t ha ht

/-- C1 at concrete inputs: with account `1010` and every later identifier
empty or zero, each builder reports the first missing identifier of its
path and returns the empty path. -/
theorem path_builders_fail_iff_first_offending_witness :
    domainPath "1010" "" = ("", some (Error.validation "domainIdentifier")) ∧
    domainServicePath "1010" "" "" = ("", some (Error.validation "domainIdentifier")) ∧
    domainServicePath "1010" "example.com" ""
      = ("", some (Error.validation "serviceIdentifier")) ∧
    templateRecordPath "1010" "1" 0 = ("", some (Error.validation "templateRecordID")) ∧
    templateRecordPath "" "1" 0 = ("", some (Error.validation "accountID")) :=
  ⟨(path_builders_fail_iff_first_offending "1010" "" "" "" 0).2.1.2.2 (by decide) rfl,
   (path_builders_fail_iff_first_offending "1010" "" "" "" 0).2.2.2.1.2.2.1 (by decide) rfl,
   (path_builders_fail_iff_first_offending "1010" "example.com" "" "" 0).2.2.2.1.2.2.2
     (by decide) (by decide) rfl,
   (path_builders_fail_iff_first_offending "1010" "" "1" "" 0).2.2.2.2.2.2.2.2.2.2
     (by decide) (by decide) rfl,
   (path_builders_fail_iff_first_offending "" "" "1" "" 0).2.2.2.2.2.2.2.2.1 rfl⟩

/-! ## C2: the paths built from valid identifiers -/

/-- C2. For non-empty identifiers and a non-zero record id every path
builder succeeds (nil error) and returns the `/`-joined path that begins
with the account segment; the record id is written in decimal. -/
theorem path_builders_build_joined_path (a d t s : String) (id : Int)
    (ha : a ≠ "") (hd : d ≠ "") (ht : t ≠ "") (hs : s ≠ "") (hid : id ≠ 0) :
    domainsPath a = ("/" ++ a ++ "/domains", none) ∧
    domainPath a d = ("/" ++ a ++ "/domains/" ++ d, none) ∧
    domainServicesPath a d = ("/" ++ a ++ "/domains/" ++ d ++ "/services", none) ∧
    domainServicePath a d s = ("/" ++ a ++ "/domains/" ++ d ++ "/services/" ++ s, none) ∧
    templatesPath a = ("/" ++ a ++ "/templates", none) ∧
    templatePath a t = ("/" ++ a ++ "/templates/" ++ t, none) ∧
    templateRecordsPath a t = ("/" ++ a ++ "/templates/" ++ t ++ "/records", none) ∧
    templateRecordPath a t id
      = ("/" ++ a ++ "/templates/" ++ t ++ "/records/" ++ toString id, none) :=
  ⟨domainsPath_ok a ha, domainPath_ok a d ha hd, domainServicesPath_ok a d ha hd,
   domainServicePath_ok a d s ha hd hs, templatesPath_ok a ha, templatePath_ok a t ha ht,
   templateRecordsPath_ok a t ha ht, templateRecordPath_ok a t id ha ht hid⟩

/-- C2 at account `1010`, domain `example.com`, template `alpha`, service
`wordpress` and record `301`. -/
theorem path_builders_build_joined_path_witness :
    domainsPath "1010" = ("/1010/domains", none) ∧
    domainPath "1010" "example.com" = ("/1010/domains/example.com", none) ∧
    domainServicesPath "1010" "example.com" = ("/1010/domains/example.com/services", none) ∧
    domainServicePath "1010" "example.com" "wordpress"
      = ("/1010/domains/example.com/services/wordpress", none) ∧
    templatesPath "1010" = ("/1010/templates", none) ∧
    templatePath "1010" "alpha" = ("/1010/templates/alpha", none) ∧
    templateRecordsPath "1010" "alpha" = ("/1010/templates/alpha/records", none) ∧
    templateRecordPath "1010" "alpha" 301 = ("/1010/templates/alpha/records/301", none) :=
  path_builders_build_joined_path "1010" "example.com" "alpha" "wordpress" 301
    (by decide) (by decide) (by decide) (by decide) (by decide)

/-! ## C3: a failed path builder stops the operation before any dispatch -/

/-- C3. Whenever the path builder of an operation fails with an error `e`,
the operation returns a nil response together with that same error `e`
and makes no transport invocation at all. This holds for every operation
that goes through a path builder; in particular `CreateDomain` with an
empty `accountID` fails with the validation error naming `accountID` and
dispatches nothing. -/
theorem failed_path_builder_stops_operation (c : Client) (a d t sv : String) (id : Int)
    (od : Option DomainListOptions) (o : Option ListOptions) (dom : Domain) (tpl : Template)
    (rec : TemplateRecord) (settings : DomainServiceSettings)
    (registrarDomainPath : String → String → String × Option Error) (e : Error) :
    ((domainsPath a).2 = some e →
      (DomainsService.mk c).ListDomains a od = ⟨none, some e, []⟩) ∧
    ((domainsPath a).2 = some e →
      (DomainsService.mk c).CreateDomain a dom = ⟨none, some e, []⟩) ∧
    ((domainPath a d).2 = some e →
      (DomainsService.mk c).GetDomain a d = ⟨none, some e, []⟩) ∧
    ((domainPath a d).2 = some e →
      (DomainsService.mk c).DeleteDomain a d = ⟨none, some e, []⟩) ∧
    ((templatesPath a).2 = some e →
      (TemplatesService.mk c).ListTemplates a o = ⟨none, some e, []⟩) ∧
    ((templatesPath a).2 = some e →
      (TemplatesService.mk c).CreateTemplate a tpl = ⟨none, some e, []⟩) ∧
    ((templatePath a t).2 = some e →
      (TemplatesService.mk c).GetTemplate a t = ⟨none, some e, []⟩) ∧
    ((templatePath a t).2 = some e →
      (TemplatesService.mk c).UpdateTemplate a t tpl = ⟨none, some e, []⟩) ∧
    ((templatePath a t).2 = some e →
      (TemplatesService.mk c).DeleteTemplate a t = ⟨none, some e, []⟩) ∧
    ((templateRecordsPath a t).2 = some e →
      (TemplatesService.mk c).ListTemplateRecords a t o = ⟨none, some e, []⟩) ∧
    ((templateRecordsPath a t).2 = some e →
      (TemplatesService.mk c).CreateTemplateRecord a t rec = ⟨none, some e, []⟩) ∧
    ((templateRecordPath a t id).2 = some e →
      (TemplatesService.mk c).GetTemplateRecord a t id = ⟨none, some e, []⟩) ∧
    ((templateRecordPath a t id).2 = some e →
      (TemplatesService.mk c).DeleteTemplateRecord a t id = ⟨none, some e, []⟩) ∧
    ((domainPath a d).2 = some e →
      (TemplatesService.mk c).ApplyTemplate a t d = ⟨none, some e, []⟩) ∧
    ((domainServicesPath a d).2 = some e →
      (ServicesService.mk c).AppliedServices a d o = ⟨none, some e, []⟩) ∧
    ((domainServicePath a d sv).2 = some e →
      (ServicesService.mk c).ApplyService a sv d settings = ⟨none, some e, []⟩) ∧
    ((domainServicePath a d sv).2 = some e →
      (ServicesService.mk c).UnapplyService a sv d = ⟨none, some e, []⟩) ∧
    ((registrarDomainPath a d).2 = some e →
      (RegistrarService.mk c).EnableDomainAutoRenewal registrarDomainPath a d
        = ⟨none, some e, []⟩) ∧
    ((registrarDomainPath a d).2 = some e →
      (RegistrarService.mk c).DisableDomainAutoRenewal registrarDomainPath a d
        = ⟨none, some e, []⟩) ∧
    (DomainsService.mk c).CreateDomain "" dom
      = ⟨none, some (Error.validation "accountID"), []⟩ := by
  refine ⟨?_, ?_, ?_, ?_, ?_, ?_, ?_, ?_, ?_, ?_, ?_, ?_, ?_, ?_, ?_, ?_, ?_, ?_, ?_, ?_⟩
  · intro h
    rcases hb : domainsPath a with ⟨p, _ | err⟩ <;>
      simp_all [DomainsService.ListDomains]
  · intro h
    rcases hb : domainsPath a with ⟨p, _ | err⟩ <;>
      simp_all [DomainsService.CreateDomain]
  · intro h
    rcases hb : domainPath a d with ⟨p, _ | err⟩ <;>
      simp_all [DomainsService.GetDomain]
  · intro h
    rcases hb : domainPath a d with ⟨p, _ | err⟩ <;>
      simp_all [DomainsService.DeleteDomain]
  · intro h
    rcases hb : templatesPath a with ⟨p, _ | err⟩ <;>
      simp_all [TemplatesService.ListTemplates]
  · intro h
    rcases hb : templatesPath a with ⟨p, _ | err⟩ <;>
      simp_all [TemplatesService.CreateTemplate]
  · intro h
    rcases hb : templatePath a t with ⟨p, _ | err⟩ <;>
      simp_all [TemplatesService.GetTemplate]
  · intro h
    rcases hb : templatePath a t with ⟨p, _ | err⟩ <;>
      simp_all [TemplatesService.UpdateTemplate]
  · intro h
    rcases hb : templatePath a t with ⟨p, _ | err⟩ <;>
      simp_all [TemplatesService.DeleteTemplate]
  · intro h
    rcases hb : templateRecordsPath a t with ⟨p, _ | err⟩ <;>
      simp_all [TemplatesService.ListTemplateRecords]
  · intro h
    rcases hb : templateRecordsPath a t with ⟨p, _ | err⟩ <;>
      simp_all [TemplatesService.CreateTemplateRecord]
  · intro h
    rcases hb : templateRecordPath a t id with ⟨p, _ | err⟩ <;>
      simp_all [TemplatesService.GetTemplateRecord]
  · intro h
    rcases hb : templateRecordPath a t id with ⟨p, _ | err⟩ <;>
      simp_all [TemplatesService.DeleteTemplateRecord]
  · intro h
    rcases hb : domainPath a d with ⟨p, _ | err⟩ <;>
      simp_all [TemplatesService.ApplyTemplate]
  · intro h
    rcases hb : domainServicesPath a d with ⟨p, _ | err⟩ <;>
      simp_all [ServicesService.AppliedServices]
  · intro h
    rcases hb : domainServicePath a d sv with ⟨p, _ | err⟩ <;>
      simp_all [ServicesService.ApplyService]
  · intro h
    rcases hb : domainServicePath a d sv with ⟨p, _ | err⟩ <;>
      simp_all [ServicesService.UnapplyService]
  · intro h
    rcases hb : registrarDomainPath a d with ⟨p, _ | err⟩ <;>
      simp_all [RegistrarService.EnableDomainAutoRenewal]
  · intro h
    rcases hb : registrarDomainPath a d with ⟨p, _ | err⟩ <;>
      simp_all [RegistrarService.DisableDomainAutoRenewal]
  · simp [DomainsService.CreateDomain, domainsPath_empty]

/-- C3 at concrete inputs, on the stub whose transport would succeed:
`GetDomain` with an empty domain identifier and `GetTemplateRecord` with a
zero record id return the builder's error and dispatch nothing. -/
theorem failed_path_builder_stops_operation_witness :
    (DomainsService.mk okClient).GetDomain "1010" ""
      = ⟨none, some (Error.validation "domainIdentifier"), []⟩ ∧
    (TemplatesService.mk okClient).GetTemplateRecord "1010" "alpha" 0
      = ⟨none, some (Error.validation "templateRecordID"), []⟩ :=
  ⟨(failed_path_builder_stops_operation okClient "1010" "" "alpha" "" 0 none none {} {} {} {}
      (fun _ _ => ("", none)) (Error.validation "domainIdentifier")).2.2.1 (by decide),
   (failed_path_builder_stops_operation okClient "1010" "" "alpha" "" 0 none none {} {} {} {}
      (fun _ _ => ("", none)) (Error.validation "templateRecordID")).2.2.2.2.2.2.2.2.2.2.2.1
      (by decide)⟩

/-! ## C4: the zone operations do not check their identifiers -/

/-- C4 (the code at empty identifiers). `ListZones` with an empty account
identifier and `GetZone` with empty identifiers do not fail with a
validation error: for every client they dispatch one `GET`, on the paths
`/v2//zones` and `/v2//zones/`, and on a transport that succeeds they return
a response and a nil error. -/
theorem zones_dispatch_with_empty_identifiers (c : Client) :
    ((ZonesService.mk c).ListZones "" none).calls
      = [⟨Method.GET, "/v2//zones", none, true⟩] ∧
    ((ZonesService.mk c).GetZone "" "").calls
      = [⟨Method.GET, "/v2//zones/", none, true⟩] ∧
    ((ZonesService.mk c).GetZone "1010" "").calls
      = [⟨Method.GET, "/v2/1010/zones/", none, true⟩] ∧
    ((ZonesService.mk okClient).ListZones "" none).err = none ∧
    ((ZonesService.mk okClient).ListZones "" none).response
      = some { HTTPResponse := some { StatusCode := 204, Body := "" } } ∧
    ((ZonesService.mk okClient).GetZone "" "").err = none ∧
    ((ZonesService.mk okClient).GetZone "" "").response
      = some { HTTPResponse := some { StatusCode := 204, Body := "" } } := by
  refine ⟨?_, ?_, ?_, ?_, ?_, ?_, ?_⟩
  · simp only [ZonesService.ListZones, addURLQueryOptions, versioned, Client.get, Client.send]
    split <;> simp
  · simp only [ZonesService.GetZone, versioned, Client.get, Client.send]
    split <;> simp
  · simp only [ZonesService.GetZone, versioned, Client.get, Client.send]
    split <;> simp
  · simp [ZonesService.ListZones, addURLQueryOptions, Client.get, Client.send, okClient]
  · simp [ZonesService.ListZones, addURLQueryOptions, versioned, Client.get, Client.send,
      okClient]
  · simp [ZonesService.GetZone, Client.get, Client.send, okClient]
  · simp [ZonesService.GetZone, versioned, Client.get, Client.send, okClient]

/-! ## C5: list operations hand back a response next to a transport error -/

/-- C5 (the code on a failing transport). With valid identifiers and a
transport that fails, `ListTemplates`, `ListTemplateRecords`,
`AppliedServices` and `ListZones` return a non-nil response together with
the non-nil error, whereas `ListDomains` and `GetTemplate` return a nil
response with the error. -/
theorem list_operations_return_response_with_error :
    (TemplatesService.mk failingClient).ListTemplates "1010" none
      = ⟨some {}, some (Error.transport "connection refused"),
          [⟨Method.GET, "/v2/1010/templates", none, true⟩]⟩ ∧
    (TemplatesService.mk failingClient).ListTemplateRecords "1010" "alpha" none
      = ⟨some {}, some (Error.transport "connection refused"),
          [⟨Method.GET, "/v2/1010/templates/alpha/records", none, true⟩]⟩ ∧
    (ServicesService.mk failingClient).AppliedServices "1010" "example.com" none
      = ⟨some {}, some (Error.transport "connection refused"),
          [⟨Method.GET, "/v2/1010/domains/example.com/services", none, true⟩]⟩ ∧
    (ZonesService.mk failingClient).ListZones "1010" none
      = ⟨some {}, some (Error.transport "connection refused"),
          [⟨Method.GET, "/v2/1010/zones", none, true⟩]⟩ ∧
    (DomainsService.mk failingClient).ListDomains "1010" none
      = ⟨none, some (Error.transport "connection refused"),
          [⟨Method.GET, "/v2/1010/domains", none, true⟩]⟩ ∧
    (TemplatesService.mk failingClient).GetTemplate "1010" "alpha"
      = ⟨none, some (Error.transport "connection refused"),
          [⟨Method.GET, "/v2/1010/templates/alpha", none, true⟩]⟩ := by
  refine ⟨?_, ?_, ?_, ?_, ?_, ?_⟩
  · simp [TemplatesService.ListTemplates, templatesPath_ok, addURLQueryOptions, versioned,
      Client.get, Client.send, failingClient]
  · simp [TemplatesService.ListTemplateRecords, templateRecordsPath_ok, addURLQueryOptions,
      versioned, Client.get, Client.send, failingClient]
  · simp [ServicesService.AppliedServices, domainServicesPath_ok, addURLQueryOptions,
      versioned, Client.get, Client.send, failingClient]
  · simp [ZonesService.ListZones, addURLQueryOptions, versioned, Client.get, Client.send,
      failingClient]
  · simp [DomainsService.ListDomains, domainsPath_ok, addURLQueryOptions, versioned,
      Client.get, Client.send, failingClient]
  · simp [TemplatesService.GetTemplate, templatePath_ok, versioned, Client.get, Client.send,
      failingClient]

/-! ## C6: `ApplyTemplate` never reads the template identifier -/

/-- C6 (the code on two templates). The outcome of `ApplyTemplate`, the
dispatched request included, does not depend on the template identifier:
for account `1010` and domain `example.com` the templates `1` and `2`, and
the empty template identifier as well, all give one body-less `POST` on
`/v2/1010/domains/example.com/templates`, a path without template segment. -/
theorem applyTemplate_ignores_template (c : Client) (a t t' d : String) :
    (TemplatesService.mk c).ApplyTemplate a t d = (TemplatesService.mk c).ApplyTemplate a t' d ∧
    ((TemplatesService.mk c).ApplyTemplate "1010" "1" "example.com").calls
      = [⟨Method.POST, "/v2/1010/domains/example.com/templates", none, false⟩] ∧
    ((TemplatesService.mk c).ApplyTemplate "1010" "2" "example.com").calls
      = [⟨Method.POST, "/v2/1010/domains/example.com/templates", none, false⟩] ∧
    ((TemplatesService.mk c).ApplyTemplate "1010" "" "example.com").calls
      = [⟨Method.POST, "/v2/1010/domains/example.com/templates", none, false⟩] := by
  have h : ∀ x : String, ((TemplatesService.mk c).ApplyTemplate "1010" x "example.com").calls
      = [⟨Method.POST, "/v2/1010/domains/example.com/templates", none, false⟩] := by
    intro x
    simp only [TemplatesService.ApplyTemplate, domainPath_ok "1010" "example.com" (by decide)
      (by decide), versioned, Client.post, Client.send]
    split <;> simp
  exact ⟨rfl, h "1", h "2", h ""⟩

/-! ## C7: the verb of each operation -/

/-- C7. For valid identifiers (non-empty strings, a non-zero record id, and a
registrar path builder that accepts its identifiers) every operation makes
exactly one transport invocation, and its verb is fixed by the kind of the
operation: the list and get operations use `GET`, the create operations
`POST`, `UpdateTemplate` uses `PATCH`, the delete, unapply and disable
operations use `DELETE`. The action endpoints fix their own verb:
`ApplyTemplate` and `ApplyService` use `POST`, `EnableDomainAutoRenewal`
uses `PUT`. -/
theorem verb_by_operation_kind (c : Client) (a d t sv : String) (id : Int)
    (od : Option DomainListOptions) (o : Option ListOptions) (dom : Domain) (tpl : Template)
    (rec : TemplateRecord) (settings : DomainServiceSettings)
    (registrarDomainPath : String → String → String × Option Error)
    (ha : a ≠ "") (hd : d ≠ "") (ht : t ≠ "") (hs : sv ≠ "") (hid : id ≠ 0)
    (hr : (registrarDomainPath a d).2 = none) :
    (((DomainsService.mk c).ListDomains a od).calls.map Request.method
      = [Method.GET]) ∧
    (((DomainsService.mk c).GetDomain a d).calls.map Request.method
      = [Method.GET]) ∧
    (((TemplatesService.mk c).ListTemplates a o).calls.map Request.method
      = [Method.GET]) ∧
    (((TemplatesService.mk c).GetTemplate a t).calls.map Request.method
      = [Method.GET]) ∧
    (((TemplatesService.mk c).ListTemplateRecords a t o).calls.map Request.method
      = [Method.GET]) ∧
    (((TemplatesService.mk c).GetTemplateRecord a t id).calls.map Request.method
      = [Method.GET]) ∧
    (((ServicesService.mk c).AppliedServices a d o).calls.map Request.method
      = [Method.GET]) ∧
    (((ZonesService.mk c).ListZones a o).calls.map Request.method
      = [Method.GET]) ∧
    (((ZonesService.mk c).GetZone a d).calls.map Request.method
      = [Method.GET]) ∧
    (((DomainsService.mk c).CreateDomain a dom).calls.map Request.method
      = [Method.POST]) ∧
    (((TemplatesService.mk c).CreateTemplate a tpl).calls.map Request.method
      = [Method.POST]) ∧
    (((TemplatesService.mk c).CreateTemplateRecord a t rec).calls.map Request.method
      = [Method.POST]) ∧
    (((TemplatesService.mk c).UpdateTemplate a t tpl).calls.map Request.method
      = [Method.PATCH]) ∧
    (((DomainsService.mk c).DeleteDomain a d).calls.map Request.method
      = [Method.DELETE]) ∧
    (((TemplatesService.mk c).DeleteTemplate a t).calls.map Request.method
      = [Method.DELETE]) ∧
    (((TemplatesService.mk c).DeleteTemplateRecord a t id).calls.map Request.method
      = [Method.DELETE]) ∧
    (((ServicesService.mk c).UnapplyService a sv d).calls.map Request.method
      = [Method.DELETE]) ∧
    (((RegistrarService.mk c).DisableDomainAutoRenewal
        registrarDomainPath a d).calls.map Request.method
      = [Method.DELETE]) ∧
    (((TemplatesService.mk c).ApplyTemplate a t d).calls.map Request.method
      = [Method.POST]) ∧
    (((ServicesService.mk c).ApplyService a sv d settings).calls.map Request.method
      = [Method.POST]) ∧
    (((RegistrarService.mk c).EnableDomainAutoRenewal
        registrarDomainPath a d).calls.map Request.method
      = [Method.PUT]) := by
  refine ⟨?_, ?_, ?_, ?_, ?_, ?_, ?_, ?_, ?_, ?_, ?_, ?_, ?_, ?_, ?_, ?_, ?_, ?_, ?_, ?_, ?_⟩
  · rw [ListDomains_calls c a od ha]; rfl
  · rw [GetDomain_calls c a d ha hd]; rfl
  · rw [ListTemplates_calls c a o ha]; rfl
  · rw [GetTemplate_calls c a t ha ht]; rfl
  · rw [ListTemplateRecords_calls c a t o ha ht]; rfl
  · rw [GetTemplateRecord_calls c a t id ha ht hid]; rfl
  · rw [AppliedServices_calls c a d o ha hd]; rfl
  · rw [ListZones_calls c a o]; rfl
  · rw [GetZone_calls c a d]; rfl
  · rw [CreateDomain_calls c a dom ha]; rfl
  · rw [CreateTemplate_calls c a tpl ha]; rfl
  · rw [CreateTemplateRecord_calls c a t rec ha ht]; rfl
  · rw [UpdateTemplate_calls c a t tpl ha ht]; rfl
  · rw [DeleteDomain_calls c a d ha hd]; rfl
  · rw [DeleteTemplate_calls c a t ha ht]; rfl
  · rw [DeleteTemplateRecord_calls c a t id ha ht hid]; rfl
  · rw [UnapplyService_calls c a d sv ha hd hs]; rfl
  · rw [DisableDomainAutoRenewal_calls c registrarDomainPath a d hr]; rfl
  · rw [ApplyTemplate_calls c a d t ha hd]; rfl
  · rw [ApplyService_calls c a d sv settings ha hd hs]; rfl
  · rw [EnableDomainAutoRenewal_calls c registrarDomainPath a d hr]; rfl

/-- C7 at account `1010`, domain `example.com`, template `alpha`, service
`wordpress`, record `301`, on the stub transport, with a registrar path
builder that returns `/1010/registrar/domains/example.com`. -/
theorem verb_by_operation_kind_witness :
    ((DomainsService.mk okClient).GetDomain "1010" "example.com").calls.map Request.method
      = [Method.GET] ∧
    ((DomainsService.mk okClient).CreateDomain "1010" {}).calls.map Request.method
      = [Method.POST] ∧
    ((TemplatesService.mk okClient).UpdateTemplate "1010" "alpha" {}).calls.map Request.method
      = [Method.PATCH] ∧
    ((RegistrarService.mk okClient).DisableDomainAutoRenewal
        (fun x y => ("/" ++ x ++ "/registrar/domains/" ++ y, none))
        "1010" "example.com").calls.map Request.method
      = [Method.DELETE] := by
  obtain ⟨-, h1, -, -, -, -, -, -, -, h9, -, -, h12, -, -, -, -, h17, -⟩ :=
    verb_by_operation_kind okClient "1010" "example.com" "alpha" "wordpress" 301 none none
      {} {} {} {} (fun x y => ("/" ++ x ++ "/registrar/domains/" ++ y, none))
      (by decide) (by decide) (by decide) (by decide) (by decide) rfl
  exact ⟨h1, h9, h12, h17⟩

/-! ## C8: `DeleteDomain` -/

/-- C8. For a non-empty account and domain identifier `DeleteDomain` makes
one invocation: `DELETE` on the versioned domain path, with a nil payload
and a nil decode target. Whenever that round trip returns a nil error,
whatever the response, the operation returns a nil error and a response
whose `Data` is nil and whose `HTTPResponse` is the response of the round
trip. -/
theorem deleteDomain_request_and_result (c : Client) (a d : String)
    (ha : a ≠ "") (hd : d ≠ "") :
    ((DomainsService.mk c).DeleteDomain a d).calls
      = [⟨Method.DELETE, versioned ("/" ++ a ++ "/domains/" ++ d), none, false⟩] ∧
    ((c.roundTrip ⟨Method.DELETE, versioned ("/" ++ a ++ "/domains/" ++ d), none, false⟩).2
        = none →
      ((DomainsService.mk c).DeleteDomain a d).err = none ∧
      ((DomainsService.mk c).DeleteDomain a d).response
        = some { HTTPResponse :=
                   (c.roundTrip
                     ⟨Method.DELETE, versioned ("/" ++ a ++ "/domains/" ++ d), none, false⟩).1,
                 Pagination := none,
                 Data := none }) := by
  refine ⟨DeleteDomain_calls c a d ha hd, ?_⟩
  intro h
  simp [DomainsService.DeleteDomain, domainPath_ok a d ha hd, Client.delete, Client.send, h]

/-- C8 at account `1010` and domain `example.com`, on the stub whose
transport answers with an empty `204`: the request is
`DELETE /v2/1010/domains/example.com`, the error is nil and the data is
nil. -/
theorem deleteDomain_request_and_result_witness :
    ((DomainsService.mk okClient).DeleteDomain "1010" "example.com").calls
      = [⟨Method.DELETE, "/v2/1010/domains/example.com", none, false⟩] ∧
    ((DomainsService.mk okClient).DeleteDomain "1010" "example.com").err = none ∧
    ((DomainsService.mk okClient).DeleteDomain "1010" "example.com").response
      = some { HTTPResponse := some { StatusCode := 204, Body := "" },
               Pagination := none,
               Data := none } :=
  ⟨(deleteDomain_request_and_result okClient "1010" "example.com" (by decide) (by decide)).1,
   ((deleteDomain_request_and_result okClient "1010" "example.com" (by decide) (by decide)).2
      rfl).1,
   ((deleteDomain_request_and_result okClient "1010" "example.com" (by decide) (by decide)).2
      rfl).2⟩

/-! ## C9: `ListDomains` and its query string -/

theorem versioned_domainsPath (a : String) :
    versioned ("/" ++ a ++ "/domains") = "/v2/" ++ a ++ "/domains" := by
  have e : "/v2" ++ "/" = "/v2/" := by decide
  rw [versioned, ← String.append_assoc, ← String.append_assoc, e]

theorem queryValues_mem (o : DomainListOptions) (k v : String) :
    (k, v) ∈ o.queryValues ↔
      ((k = "name_like" ∧ o.NameLike = some v) ∨
       (k = "registrant_id" ∧ ∃ r, o.RegistrantID = some r ∧ v = toString r) ∨
       (k = "page" ∧ o.Page ≠ 0 ∧ v = toString o.Page) ∨
       (k = "per_page" ∧ o.PerPage ≠ 0 ∧ v = toString o.PerPage)) := by
  rcases o with ⟨⟨pg, pp⟩, nl, rid⟩
  cases nl <;> cases rid <;> by_cases h1 : pg = 0 <;> by_cases h2 : pp = 0 <;>
    simp [DomainListOptions.queryValues, ListOptions.queryValues, h1, h2] <;> tauto

theorem queryValues_keys_nodup (o : DomainListOptions) :
    (o.queryValues.map Prod.fst).Nodup := by
  rcases o with ⟨⟨pg, pp⟩, nl, rid⟩
  cases nl <;> cases rid <;> by_cases h1 : pg = 0 <;> by_cases h2 : pp = 0 <;>
    simp [DomainListOptions.queryValues, ListOptions.queryValues, h1, h2]

theorem queryValues_name_like (o : DomainListOptions) (v : String) :
    ("name_like", v) ∈ o.queryValues ↔ o.NameLike = some v := by
  rw [queryValues_mem]
  simp

theorem queryValues_registrant_id (o : DomainListOptions) (v : String) :
    ("registrant_id", v) ∈ o.queryValues ↔ ∃ r, o.RegistrantID = some r ∧ v = toString r := by
  rw [queryValues_mem]
  simp

theorem queryValues_page (o : DomainListOptions) (v : String) :
    ("page", v) ∈ o.queryValues ↔ (o.Page ≠ 0 ∧ v = toString o.Page) := by
  rw [queryValues_mem]
  simp

theorem queryValues_per_page (o : DomainListOptions) (v : String) :
    ("per_page", v) ∈ o.queryValues ↔ (o.PerPage ≠ 0 ∧ v = toString o.PerPage) := by
  rw [queryValues_mem]
  simp

theorem queryValues_injective (o o' : DomainListOptions) (h : o.queryValues = o'.queryValues) :
    o = o' := by
  have hN : o.NameLike = o'.NameLike := by
    apply Option.ext
    intro v
    simp only [Option.mem_def, ← queryValues_name_like, h]
  have hR : o.RegistrantID = o'.RegistrantID := by
    have key : ∀ x y : DomainListOptions, x.queryValues = y.queryValues →
        ∀ r, x.RegistrantID = some r → y.RegistrantID = some r := by
      intro x y hxy r hr
      have m : ("registrant_id", toString r) ∈ x.queryValues :=
        (queryValues_registrant_id x _).2 ⟨r, hr, rfl⟩
      rw [hxy] at m
      obtain ⟨r', hr', e⟩ := (queryValues_registrant_id y _).1 m
      rw [hr', toString_int_injective r r' e]
    cases hr : o.RegistrantID with
    | some r => exact (key o o' h r hr).symm
    | none =>
      cases hr' : o'.RegistrantID with
      | none => rfl
      | some r' => rw [key o' o h.symm r' hr'] at hr; exact absurd hr (by simp)
  have hP : o.Page = o'.Page := by
    have key : ∀ x y : DomainListOptions, x.queryValues = y.queryValues →
        x.Page ≠ 0 → x.Page = y.Page := by
      intro x y hxy hx
      have m : ("page", toString x.Page) ∈ x.queryValues :=
        (queryValues_page x _).2 ⟨hx, rfl⟩
      rw [hxy] at m
      exact toString_int_injective _ _ ((queryValues_page y _).1 m).2
    by_cases z : o.Page = 0
    · by_cases z' : o'.Page = 0
      · rw [z, z']
      · exact absurd (key o' o h.symm z') (by rw [z]; exact z')
    · exact key o o' h z
  have hQ : o.PerPage = o'.PerPage := by
    have key : ∀ x y : DomainListOptions, x.queryValues = y.queryValues →
        x.PerPage ≠ 0 → x.PerPage = y.PerPage := by
      intro x y hxy hx
      have m : ("per_page", toString x.PerPage) ∈ x.queryValues :=
        (queryValues_per_page x _).2 ⟨hx, rfl⟩
      rw [hxy] at m
      exact toString_int_injective _ _ ((queryValues_per_page y _).1 m).2
    by_cases z : o.PerPage = 0
    · by_cases z' : o'.PerPage = 0
      · rw [z, z']
      · exact absurd (key o' o h.symm z') (by rw [z]; exact z')
    · exact key o o' h z
  rcases o with ⟨⟨pg, pp⟩, nl, rid⟩
  rcases o' with ⟨⟨pg', pp'⟩, nl', rid'⟩
  simp only at hN hR hP hQ
  subst hN hR hP hQ
  rfl

theorem queryString_parse {α : Type} [QueryOptions α] (path : String) (o : α) :
    ∃ q : String, (addURLQueryOptions path (some o)).1 = path ++ q ∧
      q = (match QueryOptions.values o with
            | [] => ""
            | kv :: kvs => "?" ++ encodeQuery (kv :: kvs)) ∧
      parseQuery q = QueryOptions.values o ∧ (q = "" ↔ QueryOptions.values o = []) := by
  cases h : QueryOptions.values o with
  | nil =>
    refine ⟨"", ?_, rfl, rfl, by simp⟩
    simp [addURLQueryOptions, h]
  | cons kv kvs =>
    refine ⟨"?" ++ encodeQuery (kv :: kvs), ?_, rfl, parseQuery_encodeQuery kv kvs, ?_⟩
    · simp only [addURLQueryOptions, h, String.append_assoc]
    · constructor
      · intro e
        have := congrArg String.data e
        exact absurd this (by simp [String.data_append])
      · intro e
        exact absurd e (by simp)

theorem queryValues_eq_nil (o : DomainListOptions) :
    o.queryValues = [] ↔
      (o.NameLike = none ∧ o.RegistrantID = none ∧ o.Page = 0 ∧ o.PerPage = 0) := by
  rcases o with ⟨⟨pg, pp⟩, nl, rid⟩
  cases nl <;> cases rid <;> by_cases h1 : pg = 0 <;> by_cases h2 : pp = 0 <;>
    simp [DomainListOptions.queryValues, ListOptions.queryValues, h1, h2]

/-- C9. For a non-empty account identifier `ListDomains` makes one `GET`
whose path is `/v2/{account}/domains` followed by a query string `q`. That
string is empty exactly when no option is set (nil options and all-default
options included); otherwise it is `?` and the escaped `name=value` items
joined by `&`. Read back the way the remote side reads a query, `q` holds
exactly the options that are set, each once: `name_like` and
`registrant_id` when their pointer is not nil, `page` and `per_page` when
they are not zero, the pagination fields flattened next to the filters, and
every value is the one of the option. The dispatched path therefore
determines the options: two option objects that dispatch the same request
are equal. -/
theorem listDomains_path_and_query (c : Client) (a : String) (o : DomainListOptions)
    (ha : a ≠ "") :
    (∃ q : String,
      ((DomainsService.mk c).ListDomains a (some o)).calls
        = [⟨Method.GET, "/v2/" ++ a ++ "/domains" ++ q, none, true⟩] ∧
      q = (match o.queryValues with
            | [] => ""
            | kv :: kvs => "?" ++ encodeQuery (kv :: kvs)) ∧
      (q = "" ↔
        (o.NameLike = none ∧ o.RegistrantID = none ∧ o.Page = 0 ∧ o.PerPage = 0)) ∧
      (∀ k v : String, (k, v) ∈ parseQuery q ↔
        ((k = "name_like" ∧ o.NameLike = some v) ∨
         (k = "registrant_id" ∧ ∃ r, o.RegistrantID = some r ∧ v = toString r) ∨
         (k = "page" ∧ o.Page ≠ 0 ∧ v = toString o.Page) ∨
         (k = "per_page" ∧ o.PerPage ≠ 0 ∧ v = toString o.PerPage))) ∧
      ((parseQuery q).map Prod.fst).Nodup) ∧
    ((DomainsService.mk c).ListDomains a none).calls
      = [⟨Method.GET, "/v2/" ++ a ++ "/domains", none, true⟩] ∧
    ((DomainsService.mk c).ListDomains a (some {})).calls
      = [⟨Method.GET, "/v2/" ++ a ++ "/domains", none, true⟩] ∧
    (∀ o' : DomainListOptions,
      ((DomainsService.mk c).ListDomains a (some o)).calls
        = ((DomainsService.mk c).ListDomains a (some o')).calls → o = o') := by
  have parse : ∀ x : DomainListOptions, ∃ q : String,
      ((DomainsService.mk c).ListDomains a (some x)).calls
        = [⟨Method.GET, "/v2/" ++ a ++ "/domains" ++ q, none, true⟩] ∧
      q = (match x.queryValues with
            | [] => ""
            | kv :: kvs => "?" ++ encodeQuery (kv :: kvs)) ∧
      parseQuery q = x.queryValues ∧ (q = "" ↔ x.queryValues = []) := by
    intro x
    obtain ⟨q, h1, h2, h3, h4⟩ := queryString_parse ("/v2/" ++ a ++ "/domains") x
    refine ⟨q, ?_, h2, h3, h4⟩
    rw [ListDomains_calls c a (some x) ha, versioned_domainsPath, h1]
  refine ⟨?_, ?_, ?_, ?_⟩
  · obtain ⟨q, h1, h2, h3, h4⟩ := parse o
    refine ⟨q, h1, h2, h4.trans (queryValues_eq_nil o), ?_, ?_⟩
    · intro k v
      rw [h3]
      exact queryValues_mem o k v
    · rw [h3]
      exact queryValues_keys_nodup o
  · rw [ListDomains_calls c a none ha, versioned_domainsPath]
    simp [addURLQueryOptions]
  · rw [ListDomains_calls c a (some {}) ha, versioned_domainsPath]
    simp [addURLQueryOptions, QueryOptions.values, DomainListOptions.queryValues,
      ListOptions.queryValues]
  · intro o' h
    obtain ⟨q, h1, -, h3, -⟩ := parse o
    obtain ⟨q', h1', -, h3', -⟩ := parse o'
    rw [h1, h1'] at h
    simp only [List.cons.injEq, Request.mk.injEq, and_true, true_and] at h
    have e : q = q' := string_append_left_cancel _ _ _ h
    apply queryValues_injective
    rw [← h3, ← h3', e]

/-- C9 at account `1010` on the stub transport. The options
`NameLike = "example"`, `Page = 2` dispatch
`/v2/1010/domains?name_like=example&page=2`; nil options dispatch
`/v2/1010/domains`; a value with a space and an `&` is escaped,
`NameLike = "a b&c"` dispatches `/v2/1010/domains?name_like=a+b%26c`;
`RegistrantID = 5`, `Page = 2`, `PerPage = 10` dispatch
`/v2/1010/domains?page=2&per_page=10&registrant_id=5`; and
`NameLike = "x&page=9"` does not dispatch the request of `NameLike = "x"`,
`Page = 9`. -/
theorem listDomains_path_and_query_witness :
    ((DomainsService.mk okClient).ListDomains "1010"
        (some { NameLike := some "example", Page := 2 })).calls
      = [⟨Method.GET, "/v2/1010/domains?name_like=example&page=2", none, true⟩] ∧
    ((DomainsService.mk okClient).ListDomains "1010" none).calls
      = [⟨Method.GET, "/v2/1010/domains", none, true⟩] ∧
    ((DomainsService.mk okClient).ListDomains "1010"
        (some { NameLike := some "a b&c" })).calls
      = [⟨Method.GET, "/v2/1010/domains?name_like=a+b%26c", none, true⟩] ∧
    ((DomainsService.mk okClient).ListDomains "1010"
        (some { RegistrantID := some 5, Page := 2, PerPage := 10 })).calls
      = [⟨Method.GET, "/v2/1010/domains?page=2&per_page=10&registrant_id=5", none, true⟩] ∧
    ((DomainsService.mk okClient).ListDomains "1010"
        (some { NameLike := some "x&page=9" })).calls
      ≠ ((DomainsService.mk okClient).ListDomains "1010"
        (some { NameLike := some "x", Page := 9 })).calls := by
  obtain ⟨⟨q, h1, h2, -⟩, -⟩ :=
    listDomains_path_and_query okClient "1010" { NameLike := some "example", Page := 2 }
      (by decide)
  obtain ⟨⟨q', k1, k2, -⟩, -⟩ :=
    listDomains_path_and_query okClient "1010" { NameLike := some "a b&c" } (by decide)
  obtain ⟨⟨q'', m1, m2, -⟩, -⟩ :=
    listDomains_path_and_query okClient "1010"
      { RegistrantID := some 5, Page := 2, PerPage := 10 } (by decide)
  rw [h2] at h1
  rw [k2] at k1
  rw [m2] at m1
  refine ⟨h1, (listDomains_path_and_query okClient "1010" {} (by decide)).2.1, k1, m1, ?_⟩
  intro h
  exact absurd
    ((listDomains_path_and_query okClient "1010" { NameLike := some "x&page=9" }
      (by decide)).2.2.2 _ h) (by decide)

/-! ## C10: service operations put the domain before the service -/

/-- C10. `ApplyService` and `UnapplyService` receive the service identifier
before the domain identifier and build the path with the domain first: for
non-empty identifiers the one dispatched request is on
`versioned("/{accountID}/domains/{domainIdentifier}/services/{serviceIdentifier}")`.
Validation follows the path order: with a non-empty account and both other
identifiers empty the error names `domainIdentifier`, and nothing is
dispatched. -/
theorem service_operations_domain_before_service (c : Client) (a sv d : String)
    (settings : DomainServiceSettings) (ha : a ≠ "") (hs : sv ≠ "") (hd : d ≠ "") :
    ((ServicesService.mk c).ApplyService a sv d settings).calls
      = [⟨Method.POST, versioned ("/" ++ a ++ "/domains/" ++ d ++ "/services/" ++ sv),
          some (Payload.serviceSettings settings), false⟩] ∧
    ((ServicesService.mk c).UnapplyService a sv d).calls
      = [⟨Method.DELETE, versioned ("/" ++ a ++ "/domains/" ++ d ++ "/services/" ++ sv),
          none, false⟩] ∧
    (ServicesService.mk c).ApplyService a "" "" settings
      = ⟨none, some (Error.validation "domainIdentifier"), []⟩ ∧
    (ServicesService.mk c).UnapplyService a "" ""
      = ⟨none, some (Error.validation "domainIdentifier"), []⟩ := by
  refine ⟨ApplyService_calls c a d sv settings ha hd hs, UnapplyService_calls c a d sv ha hd hs,
    ?_, ?_⟩
  · simp [ServicesService.ApplyService, domainServicePath_empty_domain a "" ha]
  · simp [ServicesService.UnapplyService, domainServicePath_empty_domain a "" ha]

/-- C10 at account `1010`, service `wordpress`, domain `example.com`. -/
theorem service_operations_domain_before_service_witness :
    ((ServicesService.mk okClient).ApplyService "1010" "wordpress" "example.com" {}).calls
      = [⟨Method.POST, "/v2/1010/domains/example.com/services/wordpress",
          some (Payload.serviceSettings {}), false⟩] ∧
    ((ServicesService.mk okClient).UnapplyService "1010" "wordpress" "example.com").calls
      = [⟨Method.DELETE, "/v2/1010/domains/example.com/services/wordpress", none, false⟩] ∧
    (ServicesService.mk okClient).ApplyService "1010" "" "" {}
      = ⟨none, some (Error.validation "domainIdentifier"), []⟩ ∧
    (ServicesService.mk okClient).UnapplyService "1010" "" ""
      = ⟨none, some (Error.validation "domainIdentifier"), []⟩ :=
  service_operations_domain_before_service okClient "1010" "wordpress" "example.com" {}
    (by decide) (by decide) (by decide)

/-! ## C11: the path builders are injective on slash-free identifiers -/

/-- C11, as stated, fails at record id zero. The identifiers `1010`, `alpha`
and `2020`, `beta` are non-empty and contain no `/`, and with the record id
`0` on both sides `templateRecordPath` returns the same result, the empty
path and the error naming `templateRecordID`; the accounts and the
templates differ all the same. -/
theorem templateRecordPath_zero_ids_collide :
    ("1010" ≠ "" ∧ "alpha" ≠ "" ∧ "2020" ≠ "" ∧ "beta" ≠ "") ∧
    ('/' ∉ "1010".toList ∧ '/' ∉ "alpha".toList ∧ '/' ∉ "2020".toList ∧
      '/' ∉ "beta".toList) ∧
    templateRecordPath "1010" "alpha" 0 = templateRecordPath "2020" "beta" 0 ∧
    templateRecordPath "1010" "alpha" 0 = ("", some (Error.validation "templateRecordID")) ∧
    ¬ ("1010" = "2020" ∧ "alpha" = "beta" ∧ (0 : Int) = 0) := by
  decide

/-- C11, amended. Identifiers are inserted into a path verbatim, and on
non-empty identifiers without a `/` the builders are injective:
`domainPath a d = domainPath a' d'` gives `a = a'` and `d = d'`; when the
record ids `id`, `id'` are not both zero,
`templateRecordPath a t id = templateRecordPath a' t' id'` gives `a = a'`,
`t = t'` and `id = id'`; and the result of `domainPath` is never the result
of `domainServicesPath` or of `domainServicePath`. -/
theorem path_builders_injective_on_slash_free (a d t a' d' t' s' : String) (id id' : Int)
    (ha : a ≠ "") (hd : d ≠ "") (ht : t ≠ "")
    (ha' : a' ≠ "") (hd' : d' ≠ "") (ht' : t' ≠ "") (hs' : s' ≠ "")
    (hid : id ≠ 0 ∨ id' ≠ 0)
    (sa : '/' ∉ a.toList) (sd : '/' ∉ d.toList) (st : '/' ∉ t.toList)
    (sa' : '/' ∉ a'.toList) (st' : '/' ∉ t'.toList) :
    domainPath a d = ("/" ++ a ++ "/domains/" ++ d, none) ∧
    (id ≠ 0 → templateRecordPath a t id
      = ("/" ++ a ++ "/templates/" ++ t ++ "/records/" ++ toString id, none)) ∧
    (domainPath a d = domainPath a' d' → a = a' ∧ d = d') ∧
    (templateRecordPath a t id = templateRecordPath a' t' id' →
      a = a' ∧ t = t' ∧ id = id') ∧
    domainPath a d ≠ domainServicesPath a' d' ∧
    domainPath a d ≠ domainServicePath a' d' s' := by
  have slash : '/' ∈ ("/services" : String).toList := by decide
  refine ⟨domainPath_ok a d ha hd, fun h0 => templateRecordPath_ok a t id ha ht h0,
    ?_, ?_, ?_, ?_⟩
  · intro h
    rw [domainPath_ok a d ha hd, domainPath_ok a' d' ha' hd'] at h
    exact domains_path_split a a' d d' sa sa' (Prod.mk.inj h).1
  · intro h
    by_cases z : id = 0
    · by_cases z' : id' = 0
      · exact absurd hid (by simp [z, z'])
      · subst z
        rw [templateRecordPath_zero_record a t ha ht,
          templateRecordPath_ok a' t' id' ha' ht' z'] at h
        exact absurd (Prod.mk.inj h).2 (by simp)
    · by_cases z' : id' = 0
      · subst z'
        rw [templateRecordPath_ok a t id ha ht z,
          templateRecordPath_zero_record a' t' ha' ht'] at h
        exact absurd (Prod.mk.inj h).2 (by simp)
      · rw [templateRecordPath_ok a t id ha ht z,
          templateRecordPath_ok a' t' id' ha' ht' z'] at h
        have h1 := (Prod.mk.inj h).1
        simp only [String.append_assoc] at h1
        simp only [← String.append_assoc "/" a, ← String.append_assoc ("/" ++ a),
          ← String.append_assoc "/" a', ← String.append_assoc ("/" ++ a')] at h1
        obtain ⟨e1, e2⟩ := templates_path_split a a' _ _ sa sa' h1
        simp only [← String.append_assoc] at e2
        obtain ⟨e3, e4⟩ := records_tail_split t t' id id' st st' e2
        exact ⟨e1, e3, e4⟩
  · intro h
    rw [domainPath_ok a d ha hd, domainServicesPath_ok a' d' ha' hd'] at h
    have h1 := (Prod.mk.inj h).1
    rw [String.append_assoc _ d' "/services"] at h1
    obtain ⟨-, e2⟩ := domains_path_split a a' d (d' ++ "/services") sa sa' h1
    exact sd (e2 ▸ mem_toList_append_right '/' d' "/services" slash)
  · intro h
    rw [domainPath_ok a d ha hd, domainServicePath_ok a' d' s' ha' hd' hs'] at h
    have h1 := (Prod.mk.inj h).1
    have e : "/services/" = "/services" ++ "/" := by decide
    rw [e, String.append_assoc _ ("/services" ++ "/") s', String.append_assoc _ d',
      String.append_assoc "/services" "/" s'] at h1
    obtain ⟨-, e2⟩ := domains_path_split a a' d (d' ++ ("/services" ++ ("/" ++ s'))) sa sa' h1
    refine sd (e2 ▸ ?_)
    show '/' ∈ (d' ++ ("/services" ++ ("/" ++ s'))).data
    simp only [String.data_append]
    exact List.mem_append_right _ (List.mem_append_left _ slash)

/-- C11, amended, at two pairs of different inputs. Account `1010`, domain
`example.com`, template `alpha`, record `301` against account `2020`,
domain `example.org`, template `beta`, record `302`: the results of
`domainPath` differ, those of `templateRecordPath` differ, and the result of
`domainPath` is not a result of the service builders. Record `301` against
record `302` of the same account and template: the results of
`templateRecordPath` differ. -/
theorem path_builders_injective_on_slash_free_witness :
    domainPath "1010" "example.com" ≠ domainPath "2020" "example.org" ∧
    templateRecordPath "1010" "alpha" 301 ≠ templateRecordPath "2020" "beta" 302 ∧
    domainPath "1010" "example.com" ≠ domainServicesPath "2020" "example.org" ∧
    domainPath "1010" "example.com" ≠ domainServicePath "2020" "example.org" "wordpress" ∧
    templateRecordPath "1010" "alpha" 301 ≠ templateRecordPath "1010" "alpha" 302 := by
  obtain ⟨-, -, h3, h4, h5, h6⟩ :=
    path_builders_injective_on_slash_free "1010" "example.com" "alpha" "2020" "example.org"
      "beta" "wordpress" 301 302
      (by decide) (by decide) (by decide) (by decide) (by decide) (by decide) (by decide)
      (Or.inl (by decide)) (by decide) (by decide) (by decide) (by decide) (by decide)
  obtain ⟨-, -, -, k4, -, -⟩ :=
    path_builders_injective_on_slash_free "1010" "example.com" "alpha" "1010" "example.com"
      "alpha" "wordpress" 301 302
      (by decide) (by decide) (by decide) (by decide) (by decide) (by decide) (by decide)
      (Or.inl (by decide)) (by decide) (by decide) (by decide) (by decide) (by decide)
  exact ⟨fun h => absurd (h3 h).1 (by decide), fun h => absurd (h4 h).1 (by decide), h5, h6,
    fun h => absurd (k4 h).2.2 (by decide)⟩

/-- Identifiers are not escaped: a domain identifier that contains a `/`
can build the path of another builder. -/
theorem identifiers_with_slash_collide :
    domainPath "1010" "example.com/services" = domainServicesPath "1010" "example.com" ∧
    domainPath "1010/domains" "example.com" = domainPath "1010" "domains/example.com" := by
  decide

end Dnsimple
